import Mathlib

/-!
Verification development for the subprocess bridge / request-multiplexing
core of the `claude-voice-interview` repository.

The two bridge implementations are embedded shallowly:

* `PySpeech`   — `src/src/main/python-speech-service.js` (`PythonSpeechService`)
* `ClaudeCode` — `src/src/main/claude-code-service.js` (`ClaudeCodeService`)

JavaScript values that can appear as parsed JSON are modelled by `JsonVal`
(numeric literals restricted to integers: every number occurring on the
protocol paths under study is an integer).  Promise settlement is modelled by
explicit outcome values: routers and timers return the settlement that the
corresponding JS code performs on the stored resolve/reject callbacks.
`setTimeout`/`clearTimeout` are modelled by recording, for each pending
request, the timeout value its timer was armed with; the firing of a timer is
an explicit step (`timeoutFire`).  Writes to the child's stdin are modelled as
an append-only trace and are assumed to succeed (the `stdin.write` catch
branches of the source are not exercised by any claim).
-/

/-- Parsed JSON values (JS values producible by `JSON.parse`). -/
inductive JsonVal : Type where
  | str (s : String)
  | num (n : Int)
  | boolean (b : Bool)
  | null
  | obj (fields : List (String × JsonVal))
  | arr (elems : List JsonVal)

/-- First binding of a key in a JS object, `undefined` as `none`
(JS objects have at most one binding per key). -/
def lookupField (fields : List (String × JsonVal)) (k : String) : Option JsonVal :=
  (fields.find? (fun p => p.1 == k)).map (fun p => p.2)

/-- JS truthiness of a defined value. -/
def jsTruthyV : JsonVal → Bool
  | .str s => !(s == "")
  | .num n => !(n == 0)
  | .boolean b => b
  | .null => false
  | .obj _ => true
  | .arr _ => true

/-- JS truthiness with `undefined` (`none`) falsy. -/
def jsTruthyOpt : Option JsonVal → Bool
  | none => false
  | some v => jsTruthyV v

/-- JS `String(v)` as used by `new Error(v)`.  On the protocol paths the
argument is always a string; arrays are modelled opaquely since they are
unreachable as error values in the source. -/
def jsToString : JsonVal → String
  | .str s => s
  | .num n => toString n
  | .boolean b => cond b "true" "false"
  | .null => "null"
  | .obj _ => "[object Object]"
  | .arr _ => "[array]"

/-- JS property access `v[k]` on a parsed JSON value: throws (`.error`) on
`null`, yields `undefined` (`none`) on non-objects, looks up on objects. -/
def getFieldJS : JsonVal → String → Except Unit (Option JsonVal)
  | .null, _ => .error ()
  | .obj fs, k => .ok (lookupField fs k)
  | _, _ => .ok none

/-- `const { requestId, ...rest } = response` on an object:
every binding except `requestId`, order preserved. -/
def omitRequestId : JsonVal → List (String × JsonVal)
  | .obj fs => fs.filter (fun p => !(p.1 == "requestId"))
  | _ => []

/-- JS object spread `{ ...defaults, ...override }` under first-match lookup:
defaults not overridden, then the overriding bindings. -/
def jsMerge (defaults override : List (String × JsonVal)) :
    List (String × JsonVal) :=
  defaults.filter (fun p => !(override.any (fun q => q.1 == p.1))) ++ override

/-- JS `String.prototype.trim()`: strip leading and trailing whitespace. -/
def jsTrim (s : String) : String :=
  ⟨((s.data.dropWhile Char.isWhitespace).reverse.dropWhile
      Char.isWhitespace).reverse⟩

/-- One line of a stdout chunk after `split('\n')` and blank filtering:
the raw text plus the result of `JSON.parse` (`none` = parse threw). -/
structure RawLine where
  raw : String
  parsed : Option JsonVal

namespace PySpeech

/-- Settlement performed on a pending request's stored callbacks
(`resolve`/`reject` of the caller's promise). -/
inductive PyOutcome : Type where
  | resolved (v : List (String × JsonVal))
  | rejected (msg : String)

/-- Whether a settlement is a rejection. -/
def PyOutcome.isRejected : PyOutcome → Bool
  | .rejected _ => true
  | _ => false

/-- An entry of `this.requestQueue`: the request object and its timeout. -/
structure PyQueued where
  request : List (String × JsonVal)
  timeout : Int

/-- A line written to the python child's stdin:
`JSON.stringify({...request, requestId}) + '\n'`. -/
structure PyWrite where
  requestId : Nat
  request : List (String × JsonVal)

/-- State of a `PythonSpeechService` instance.  `pending` holds the keys of
`this.pendingRequests` together with the timeout each entry's timer was armed
with; `writes` is the trace of stdin writes. -/
structure PyState where
  hasProcess : Bool
  isReady : Bool
  requestQueue : List PyQueued
  pending : List (Nat × Int)
  requestId : Nat
  errors : List String
  info : List String
  writes : List PyWrite

/-- `this.maxQueueSize`. -/
def maxQueueSize : Nat := 10

/-- Freshly constructed service. -/
def initial : PyState :=
  { hasProcess := false, isReady := false, requestQueue := [], pending := []
    requestId := 0, errors := [], info := [], writes := [] }

/-- `isRunning()`: `this.isReady && this.pythonProcess !== null`. -/
def isRunningB (s : PyState) : Bool := s.isReady && s.hasProcess

/-- `this.pendingRequests.has(v)` where the stored keys are the numeric ids:
SameValueZero equality, so only a numeric JSON value can match. -/
def pendingHas (pending : List (Nat × Int)) : JsonVal → Bool
  | .num n => pending.any (fun p => (p.1 : Int) == n)
  | _ => false

/-- The Map key named by a matching response value. -/
def keyOf : JsonVal → Nat
  | .num n => n.toNat
  | _ => 0

/-- `response.error === 'Audio format not supported'`. -/
def isAudioFormatErr : Option JsonVal → Bool
  | some (.str s) => s == "Audio format not supported"
  | _ => false

/-- The object resolved for an `'Audio format not supported'` error. -/
def audioFormatUnsupportedResult : List (String × JsonVal) :=
  [("transcript", .str ""), ("confidence", .num 0),
   ("error", .str "Audio format not supported")]

/-- `handlePythonResponse(response)`: settle the matching pending entry, if
any.  Returns the new state and the settlement performed (property access on
a parsed `null` throws, which the stdout handler catches). -/
def handlePythonResponse (s : PyState) (v : JsonVal) :
    Except Unit (PyState × Option (Nat × PyOutcome)) :=
  match getFieldJS v "requestId" with
  | .error () => .error ()
  | .ok ridOpt =>
    match ridOpt with
    | none => .ok (s, none)
    | some rid =>
      if jsTruthyV rid && pendingHas s.pending rid then
        let key := keyOf rid
        let s1 := { s with pending := s.pending.filter (fun p => !(p.1 == key)) }
        match getFieldJS v "error" with
        | .error () => .error ()
        | .ok errOpt =>
          if jsTruthyOpt errOpt then
            if isAudioFormatErr errOpt then
              .ok (s1, some (key, .resolved audioFormatUnsupportedResult))
            else
              .ok (s1, some (key, .rejected (jsToString (errOpt.getD .null))))
          else
            .ok (s1, some (key, .resolved (omitRequestId v)))
      else .ok (s, none)

/-- One line of the stdout data handler: parse, handle, catch-and-log. -/
def onStdoutLine (acc : PyState × List (Nat × PyOutcome)) (l : RawLine) :
    PyState × List (Nat × PyOutcome) :=
  match l.parsed with
  | some v =>
    match handlePythonResponse acc.1 v with
    | .ok (s1, some o) => (s1, acc.2 ++ [o])
    | .ok (s1, none) => (s1, acc.2)
    | .error () =>
      ({ acc.1 with errors :=
          acc.1.errors ++ ["Failed to parse Python response: " ++ l.raw] }, acc.2)
  | none =>
    ({ acc.1 with errors :=
        acc.1.errors ++ ["Failed to parse Python response: " ++ l.raw] }, acc.2)

/-- The stdout data handler over a chunk's non-blank lines. -/
def onStdout (s : PyState) (ls : List RawLine) :
    PyState × List (Nat × PyOutcome) :=
  ls.foldl onStdoutLine (s, [])

/-- Result channel of `sendRequest` (an `async` function, so a synchronous
throw cannot escape it: failure surfaces only as a rejected promise). -/
inductive PySendResult : Type where
  | thrown (msg : String)
  | rejectedPromise (msg : String)
  | queuedPending
  | dispatched (id : Nat)

/-- Whether a send outcome is a synchronous throw. -/
def PySendResult.isThrown : PySendResult → Bool
  | .thrown _ => true
  | _ => false

/-- `sendRequest(request, timeout)`. -/
def sendRequest (s : PyState) (request : List (String × JsonVal))
    (timeout : Int) : PyState × PySendResult :=
  if !(isRunningB s) then
    if maxQueueSize ≤ s.requestQueue.length then
      (s, .rejectedPromise "Request queue full")
    else
      ({ s with requestQueue := s.requestQueue ++ [⟨request, timeout⟩] },
       .queuedPending)
  else
    let id := s.requestId + 1
    ({ s with requestId := id
              pending := s.pending ++ [(id, timeout)]
              writes := s.writes ++ [⟨id, request⟩] },
     .dispatched id)

/-- `request.action === 'recognize'`. -/
def isRecognize (req : List (String × JsonVal)) : Bool :=
  match lookupField req "action" with
  | some (.str a) => a == "recognize"
  | _ => false

/-- The body of the timer armed in `sendRequest`, firing for `requestId = id`
of a request `req`: delete the entry, then settle — a recognition request
resolves with a recognition-timeout result, anything else rejects. -/
def timeoutFire (s : PyState) (id : Nat) (req : List (String × JsonVal)) :
    PyState × PyOutcome :=
  ({ s with pending := s.pending.filter (fun p => !(p.1 == id)) },
   if isRecognize req then
     .resolved [("transcript", .str ""), ("confidence", .num 0),
                ("error", .str "Recognition timeout")]
   else .rejected "Request timeout")

/-- The `processQueue` while-loop over the popped entries. -/
def processQueueGo : List PyQueued → PyState → PyState
  | [], s => s
  | q :: rest, s =>
    if isRunningB s then
      processQueueGo rest (sendRequest s q.request q.timeout).1
    else
      { s with requestQueue := q :: rest }

/-- `processQueue()`. -/
def processQueue (s : PyState) : PyState :=
  processQueueGo s.requestQueue { s with requestQueue := [] }

/-- `start()` (successful spawn): create the process, mark ready, drain. -/
def start (s : PyState) : PyState :=
  if s.hasProcess then s
  else processQueue { s with hasProcess := true, isReady := true }

/-- `stop()`: kill, drop the handle, reject every pending entry with
`'Service stopped'`, clear the table.  Returns the rejections performed
(the request queue is not touched by `stop`). -/
def stop (s : PyState) : PyState × List (Nat × String) :=
  if !s.hasProcess then (s, [])
  else
    ({ s with hasProcess := false, isReady := false, pending := [] },
     s.pending.map (fun p => (p.1, "Service stopped")))

/-- The `exit` handler: clear readiness and the handle; on `code !== 0`
(note: JS `null !== 0` holds) log, emit `crashed` and schedule one restart
after 1000 ms.  Returns the scheduled restart delay, if any. -/
def onExit (s : PyState) (code : Option Int) : PyState × Option Nat :=
  let s1 := { s with isReady := false, hasProcess := false }
  if code ≠ some 0 then
    ({ s1 with errors := s1.errors ++ ["Python service exited with code"] },
     some 1000)
  else (s1, none)

/-- Text argument categories for `synthesizeSpeech` (`typeof text` check). -/
inductive JSText : Type where
  | str (s : String)
  | nonString

/-- `synthesizeSpeech(text, config)` up to the awaited `sendRequest`:
the validation guard runs before any request object is built, any id is
assigned, anything is queued or written. -/
def synthesizeSpeech (s : PyState) (text : JSText)
    (config : List (String × JsonVal)) : PyState × Except String PySendResult :=
  match text with
  | .nonString => (s, .error "Text cannot be empty")
  | .str t =>
    if t == "" || jsTrim t == "" then (s, .error "Text cannot be empty")
    else
      let req : List (String × JsonVal) :=
        [("action", .str "synthesize"), ("text", .str (jsTrim t)),
         ("config", .obj (jsMerge
            [("voice", .str "default"), ("rate", .num 150)] config))]
      let r := sendRequest s req 10000
      (r.1, .ok r.2)

end PySpeech

namespace ClaudeCode

/-- Settlement performed on a pending request's stored callbacks.  The
`REQUEST_ID` marker path resolves with raw text; the JSON-line path resolves
with an object or rejects. -/
inductive COutcome : Type where
  | resolvedObj (v : List (String × JsonVal))
  | resolvedText (t : String)
  | rejected (msg : String)

/-- Whether a settlement is a rejection. -/
def COutcome.isRejected : COutcome → Bool
  | .rejected _ => true
  | _ => false

/-- An entry of `this.requestQueue`: either a traditional JSON request
(`{action, data, ...}`) or a `{type: 'prompt'}` entry. -/
inductive CQueued : Type where
  | json (action : String) (data : List (String × JsonVal)) (timeout : Int)
  | prompt (prompt : String) (timeout : Int)

/-- A write to the claude child's stdin: a JSON line
`JSON.stringify({requestId, action, ...data}) + '\n'`, or the raw framed
prompt text of `_sendPromptToClaudeCode`. -/
inductive CWrite : Type where
  | json (requestId : String) (action : String) (data : List (String × JsonVal))
  | raw (text : String)

/-- Which stored resolve a `pendingRequests` entry holds: the plain promise
resolve registered by `_sendRequest` (`json`), or the custom resolve
registered by `_sendPromptToClaudeCode` (`prompt`), which re-parses its
argument — `response.match(/\x7b[\s\S]*\x7d/)` inside a try/catch — before
settling the caller's promise. -/
inductive HandlerKind : Type where
  | json
  | prompt

/-- A `pendingRequests` entry: the kind of its stored resolve and the
timeout its timer was armed with. -/
structure CPendingEntry where
  kind : HandlerKind
  timeout : Int

/-- State of a `ClaudeCodeService` instance.  `pending` holds the keys of
`this.pendingRequests` (strings: `(++this.requestId).toString()`), each with
the kind of the stored resolve and the timeout its timer was armed with. -/
structure CState where
  hasProcess : Bool
  isReady : Bool
  requestQueue : List CQueued
  pending : List (String × CPendingEntry)
  requestId : Nat
  errors : List String
  info : List String
  writes : List CWrite

/-- `this.maxQueueSize`. -/
def maxQueueSize : Nat := 10

/-- Freshly constructed service (for the queueing scenarios: process spawned,
readiness banner not yet seen). -/
def initial : CState :=
  { hasProcess := true, isReady := false, requestQueue := [], pending := []
    requestId := 0, errors := [], info := [], writes := [] }

/-- `this.pendingRequests.has(v)` with string keys: SameValueZero, so only a
string JSON value can match (a numeric `requestId` in a JSON response never
matches the string keys stored by `_sendRequest`). -/
def pendingHas (pending : List (String × CPendingEntry)) : JsonVal → Bool
  | .str k => pending.any (fun p => p.1 == k)
  | _ => false

/-- The Map key named by a matching response value. -/
def keyOf : JsonVal → String
  | .str k => k
  | _ => ""

/-- One JSON line of `_handleClaudeResponse`: settle the matching pending
entry, if any (property access on a parsed `null` throws; the per-line
`catch` of the source handles it). -/
def handleResponseLine (s : CState) (v : JsonVal) :
    Except Unit (CState × Option (String × COutcome)) :=
  match getFieldJS v "requestId" with
  | .error () => .error ()
  | .ok ridOpt =>
    match ridOpt with
    | none => .ok (s, none)
    | some rid =>
      if jsTruthyV rid && pendingHas s.pending rid then
        let key := keyOf rid
        let s1 := { s with pending := s.pending.filter (fun p => !(p.1 == key)) }
        match getFieldJS v "error" with
        | .error () => .error ()
        | .ok errOpt =>
          if jsTruthyOpt errOpt then
            .ok (s1, some (key, .rejected (jsToString (errOpt.getD .null))))
          else
            .ok (s1, some (key, .resolvedObj (omitRequestId v)))
      else .ok (s, none)

/-- A stdout chunk of `_handleClaudeResponse` after its lexical phase:
either the `REQUEST_ID:(\d+)` regex matched — carrying the captured digits
and the content after the first line — or not, in which case the chunk is
split into non-blank lines (`hasMarkerText` records
`content.includes('REQUEST_ID:')`, used by the catch branch). -/
inductive CChunk : Type where
  | marked (id : String) (payload : String)
  | plain (ls : List RawLine) (hasMarkerText : Bool)

/-- One line of the JSON branch of `_handleClaudeResponse`, with its
catch-and-log (suppressed when the content contains `REQUEST_ID:`). -/
def onStdoutLine (hasMarkerText : Bool)
    (acc : CState × List (String × COutcome)) (l : RawLine) :
    CState × List (String × COutcome) :=
  let logBad (s : CState) : CState :=
    if hasMarkerText then s
    else { s with errors := s.errors ++ ["Failed to parse response: " ++ l.raw] }
  match l.parsed with
  | some v =>
    match handleResponseLine acc.1 v with
    | .ok (s1, some o) => (s1, acc.2 ++ [o])
    | .ok (s1, none) => (s1, acc.2)
    | .error () => (logBad acc.1, acc.2)
  | none => (logBad acc.1, acc.2)

/-- `_handleClaudeResponse(data)` over a chunk. -/
def onStdout (s : CState) (c : CChunk) : CState × List (String × COutcome) :=
  match c with
  | .marked id payload =>
    if s.pending.any (fun p => p.1 == id) then
      ({ s with pending := s.pending.filter (fun p => !(p.1 == id)) },
       [(id, .resolvedText payload)])
    else (s, [])
  | .plain ls hasMarkerText =>
    ls.foldl (onStdoutLine hasMarkerText) (s, [])

/-- The kind of the stored resolve held by a pending entry
(only meaningful for ids present in the table). -/
def kindOf (pending : List (String × CPendingEntry)) (id : String) :
    HandlerKind :=
  match pending.find? (fun p => p.1 == id) with
  | some p => p.2.kind
  | none => .json

/-- The V8 `TypeError` message produced by calling `.match` on a plain
object — what happens when the JSON branch hands an object to a
`_sendPromptToClaudeCode`-registered resolve. -/
def matchNotFunctionMsg : String := "response.match is not a function"

/-- What the originating caller's promise observes when a pending entry's
stored callback is invoked. -/
inductive CCallerOutcome : Type where
  | resolvedObj (v : List (String × JsonVal))
  | resolvedText (t : String)
  | promptExtraction (t : String)
  | rejected (msg : String)

/-- Whether the caller's promise resolved with an object. -/
def CCallerOutcome.isResolvedObj : CCallerOutcome → Bool
  | .resolvedObj _ => true
  | _ => false

/-- Interpret an invocation of a pending entry's stored callbacks at the
caller's promise.  A `json`-kind stored resolve is the promise's own resolve
(after clearing the timer), so the caller sees the argument unchanged.  A
`prompt`-kind stored resolve wraps `response.match(/\x7b[\s\S]*\x7d/)` in a
try/catch: on a plain-object argument `.match` throws a `TypeError`, and the
catch rejects the caller's promise with
`'Failed to parse Claude Code JSON response: ' + error.message`; on a string
argument it proceeds to the regex JSON extraction, which no claim under
study depends on and is left abstract.  A stored reject forwards the message
unchanged for both kinds. -/
def callerView : HandlerKind → COutcome → CCallerOutcome
  | _, .rejected m => .rejected m
  | .json, .resolvedObj v => .resolvedObj v
  | .json, .resolvedText t => .resolvedText t
  | .prompt, .resolvedObj _ =>
    .rejected ("Failed to parse Claude Code JSON response: "
      ++ matchNotFunctionMsg)
  | .prompt, .resolvedText t => .promptExtraction t

/-- Result channel of `_sendRequest` / `_sendPromptToClaudeCode`.
`_sendRequest` is a plain function, so its queue-full check (which runs
before the `Promise` constructor) throws synchronously; in the `async`
`_sendPromptToClaudeCode` the same `throw` is delivered to callers as a
rejected promise. -/
inductive CSendResult : Type where
  | thrownQueueFull
  | rejectedPromise (msg : String)
  | queuedPending
  | dispatched (id : String)

/-- Whether a send outcome is a synchronous throw. -/
def CSendResult.isThrown : CSendResult → Bool
  | .thrownQueueFull => true
  | _ => false

/-- `_sendRequest(action, data, timeout)`. -/
def sendRequest (s : CState) (action : String)
    (data : List (String × JsonVal)) (timeout : Int) : CState × CSendResult :=
  if !s.isReady && maxQueueSize ≤ s.requestQueue.length then
    (s, .thrownQueueFull)
  else if !s.isReady then
    ({ s with requestQueue := s.requestQueue ++ [.json action data timeout] },
     .queuedPending)
  else
    let id := toString (s.requestId + 1)
    ({ s with requestId := s.requestId + 1
              pending := s.pending ++ [(id, ⟨.json, timeout⟩)]
              writes := s.writes ++ [.json id action data] },
     .dispatched id)

/-- The framed request text written by `_sendPromptToClaudeCode`. -/
def promptFrame (id : String) (prompt : String) : String :=
  "REQUEST_ID:" ++ id ++ "\n" ++ prompt ++ "\n---END_REQUEST---\n"

/-- `_sendPromptToClaudeCode(prompt, timeout)`: an `async` function, so its
queue-full `throw` surfaces to callers as a rejected promise. -/
def sendPrompt (s : CState) (prompt : String) (timeout : Int) :
    CState × CSendResult :=
  if !s.isReady && maxQueueSize ≤ s.requestQueue.length then
    (s, .rejectedPromise "Request queue is full")
  else if !s.isReady then
    ({ s with requestQueue := s.requestQueue ++ [.prompt prompt timeout] },
     .queuedPending)
  else
    let id := toString (s.requestId + 1)
    ({ s with requestId := s.requestId + 1
              pending := s.pending ++ [(id, ⟨.prompt, timeout⟩)]
              writes := s.writes ++ [.raw (promptFrame id prompt)] },
     .dispatched id)

/-- The body of the timer armed in `_sendRequest`/`_sendPromptToClaudeCode`:
reject with `'Request timeout'` only if the entry is still present. -/
def timeoutFire (s : CState) (id : String) :
    CState × Option (String × COutcome) :=
  if s.pending.any (fun p => p.1 == id) then
    ({ s with pending := s.pending.filter (fun p => !(p.1 == id)) },
     some (id, .rejected "Request timeout"))
  else (s, none)

/-- The `_processQueue` while-loop over the popped entries. -/
def processQueueGo : List CQueued → CState → CState
  | [], s => s
  | q :: rest, s =>
    if s.isReady then
      match q with
      | .json a d t => processQueueGo rest (sendRequest s a d t).1
      | .prompt p t => processQueueGo rest (sendPrompt s p t).1
    else { s with requestQueue := q :: rest }

/-- `_processQueue()`. -/
def processQueue (s : CState) : CState :=
  processQueueGo s.requestQueue { s with requestQueue := [] }

/-- The readiness-banner branch of the stdout handler
(`'Claude Code initialized'` observed while not ready): mark ready, drain. -/
def becomeReady (s : CState) : CState :=
  if s.isReady then s
  else processQueue { s with isReady := true }

/-- `reset()`, with the (model-only) write trace carried through. -/
def resetOf (s : CState) : CState :=
  { hasProcess := false, isReady := false, requestQueue := [], pending := []
    requestId := 0, errors := [], info := [], writes := s.writes }

/-- `stop()`: the `exit` handler fired by the SIGTERM (or the forced-kill
fallback) ends in `reset()`.  No pending or queued call is settled: the
returned rejection list is always empty. -/
def stop (s : CState) : CState × List (String × String) :=
  if !s.hasProcess then (s, [])
  else (resetOf s, [])

/-- The `exit` handler: clear readiness and the handle; on
`code !== 0 && code !== null` emit `crash` and schedule one restart after
1000 ms (`.catch(() => {})` swallows restart failures).  Returns the
scheduled restart delay, if any. -/
def onExit (s : CState) (code : Option Int) : CState × Option Nat :=
  let s1 := { s with isReady := false, hasProcess := false }
  match code with
  | some n => if n ≠ 0 then (s1, some 1000) else (s1, none)
  | none => (s1, none)

end ClaudeCode

namespace Logs

/-- A heap of JS string arrays, addressed by reference. -/
structure LogHeap where
  arrs : List (List String)

/-- Dereference an array. -/
def LogHeap.read (h : LogHeap) (r : Nat) : List String :=
  (h.arrs.get? r).getD []

/-- Overwrite the array behind a reference (no-op when out of range). -/
def LogHeap.write (h : LogHeap) (r : Nat) (v : List String) : LogHeap :=
  ⟨h.arrs.set r v⟩

/-- `arr.push(x)` through a reference. -/
def LogHeap.push (h : LogHeap) (r : Nat) (x : String) : LogHeap :=
  h.write r (h.read r ++ [x])

/-- Allocate a fresh array. -/
def LogHeap.alloc (h : LogHeap) (v : List String) : LogHeap × Nat :=
  (⟨h.arrs ++ [v]⟩, h.arrs.length)

/-- A `logs` object: references to its `errors` and `info` arrays. -/
structure LogsRef where
  errorsRef : Nat
  infoRef : Nat

/-- `PythonSpeechService.getLogs()`: `{ ...this.logs }` — a fresh top-level
object whose fields are the *same* array references. -/
def getLogsPython (h : LogHeap) (internal : LogsRef) : LogHeap × LogsRef :=
  (h, ⟨internal.errorsRef, internal.infoRef⟩)

/-- `ClaudeCodeService.getLogs()`:
`{ errors: [...this.logs.errors], info: [...this.logs.info] }` — freshly
allocated copies of both arrays. -/
def getLogsClaude (h : LogHeap) (internal : LogsRef) : LogHeap × LogsRef :=
  let e := h.alloc (h.read internal.errorsRef)
  let i := e.1.alloc (e.1.read internal.infoRef)
  (i.1, ⟨e.2, i.2⟩)

/-- A caller mutating the snapshot it received: each mutation pushes a string
onto the snapshot's errors array (`true`) or info array (`false`). -/
def pushAll (h : LogHeap) (snap : LogsRef) (muts : List (Bool × String)) :
    LogHeap :=
  muts.foldl
    (fun a m => a.push (if m.1 then snap.errorsRef else snap.infoRef) m.2) h

end Logs

namespace PySpeech

/-- A sequence of calls placed through `sendRequest` (payload, timeout). -/
def enqueueAll (s : PyState)
    (calls : List (List (String × JsonVal) × Int)) : PyState :=
  calls.foldl (fun a c => (sendRequest a c.1 c.2).1) s

/-- The queue entry a call becomes while the service is not running. -/
def mkQueued (c : List (String × JsonVal) × Int) : PyQueued :=
  ⟨c.1, c.2⟩

/-- The stdin writes produced by draining a queue, ids assigned
consecutively from `n + 1`. -/
def expectedWrites : Nat → List PyQueued → List PyWrite
  | _, [] => []
  | n, q :: rest => ⟨n + 1, q.request⟩ :: expectedWrites (n + 1) rest

/-- The pending entries produced by draining a queue. -/
def armedEntries : Nat → List PyQueued → List (Nat × Int)
  | _, [] => []
  | n, q :: rest => (n + 1, q.timeout) :: armedEntries (n + 1) rest

/-- Whether a parsed response would match a pending entry
(the guard of `handlePythonResponse`). -/
def respHits (pending : List (Nat × Int)) (v : JsonVal) : Bool :=
  match getFieldJS v "requestId" with
  | .ok (some rid) => jsTruthyV rid && pendingHas pending rid
  | _ => false

/-- Whether a raw stdout line would match a pending entry. -/
def lineHits (pending : List (Nat × Int)) (l : RawLine) : Bool :=
  match l.parsed with
  | some v => respHits pending v
  | none => false

end PySpeech

namespace ClaudeCode

/-- Dispatch one call through the send path matching its kind. -/
def enqueueCall (s : CState) : CQueued → CState
  | .json a d t => (sendRequest s a d t).1
  | .prompt p t => (sendPrompt s p t).1

/-- A sequence of calls placed through the two send paths. -/
def enqueueAll (s : CState) (calls : List CQueued) : CState :=
  calls.foldl enqueueCall s

/-- The stdin writes produced by draining a queue, ids assigned
consecutively from `n + 1`. -/
def expectedWrites : Nat → List CQueued → List CWrite
  | _, [] => []
  | n, .json a d _ :: rest =>
    .json (toString (n + 1)) a d :: expectedWrites (n + 1) rest
  | n, .prompt p _ :: rest =>
    .raw (promptFrame (toString (n + 1)) p) :: expectedWrites (n + 1) rest

/-- The pending entries produced by draining a queue. -/
def armedEntries : Nat → List CQueued → List (String × CPendingEntry)
  | _, [] => []
  | n, .json _ _ t :: rest =>
    (toString (n + 1), ⟨.json, t⟩) :: armedEntries (n + 1) rest
  | n, .prompt _ t :: rest =>
    (toString (n + 1), ⟨.prompt, t⟩) :: armedEntries (n + 1) rest

/-- Whether a parsed JSON line would match a pending entry
(the guard of `handleResponseLine`). -/
def respHits (pending : List (String × CPendingEntry)) (v : JsonVal) : Bool :=
  match getFieldJS v "requestId" with
  | .ok (some rid) => jsTruthyV rid && pendingHas pending rid
  | _ => false

/-- Whether a raw stdout line would match a pending entry. -/
def lineHits (pending : List (String × CPendingEntry)) (l : RawLine) : Bool :=
  match l.parsed with
  | some v => respHits pending v
  | none => false

end ClaudeCode

namespace Ex

/-- A running python service with one in-flight request (id 1). -/
def pyLive : PySpeech.PyState :=
  { PySpeech.initial with
      hasProcess := true, isReady := true, pending := [(1, 5000)], requestId := 1 }

/-- A ready claude service with one in-flight `_sendRequest` call
(id `"1"`). -/
def cLive : ClaudeCode.CState :=
  { ClaudeCode.initial with
      isReady := true, pending := [("1", ⟨.json, 5000⟩)], requestId := 1 }

/-- A ready claude service with one in-flight `_sendPromptToClaudeCode`
call (id `"1"`). -/
def cPromptLive : ClaudeCode.CState :=
  { ClaudeCode.initial with
      isReady := true, pending := [("1", ⟨.prompt, 10000⟩)], requestId := 1 }

/-- A response carrying the recognition error the python router treats
specially. -/
def audioErrResp : List (String × JsonVal) :=
  [("requestId", .num 1), ("error", .str "Audio format not supported")]

/-- A plain error response. -/
def plainErrResp : List (String × JsonVal) :=
  [("requestId", .num 1), ("error", .str "TTS engine failed")]

/-- A successful recognition response. -/
def okResp : List (String × JsonVal) :=
  [("requestId", .num 1), ("transcript", .str "hello"), ("confidence", .num 1)]

/-- A successful claude JSON response (string `requestId`, matching the
string keys the claude service stores). -/
def cOkResp : List (String × JsonVal) :=
  [("requestId", .str "1"), ("question", .str "Tell me about your experience")]

/-- A claude JSON error response. -/
def cErrResp : List (String × JsonVal) :=
  [("requestId", .str "1"), ("error", .str "model overloaded")]

/-- A recognition request (the `action` the timeout path special-cases). -/
def recognizeReq : List (String × JsonVal) :=
  [("action", .str "recognize"), ("audioData", .str "AAAA")]

/-- A synthesis request. -/
def synthesizeReq : List (String × JsonVal) :=
  [("action", .str "synthesize"), ("text", .str "hi")]

/-- A python service that is not running and whose queue is at capacity. -/
def pyFull : PySpeech.PyState :=
  { PySpeech.initial with
      requestQueue := List.replicate 10 ⟨[("action", .str "status")], 5000⟩ }

/-- A claude service that is not ready and whose queue is at capacity. -/
def cFull : ClaudeCode.CState :=
  { ClaudeCode.initial with
      requestQueue := List.replicate 10 (.json "getStatus" [] 5000) }

/-- A running python service with no traffic yet. -/
def pyReady : PySpeech.PyState :=
  { PySpeech.initial with hasProcess := true, isReady := true }

/-- A started claude service with one pending call. -/
def cBusy : ClaudeCode.CState :=
  { ClaudeCode.initial with
      isReady := true, pending := [("1", ⟨.json, 10000⟩)], requestId := 1
      requestQueue := [] }

/-- A running python service with one pending and one queued call. -/
def pyBusy : PySpeech.PyState :=
  { PySpeech.initial with
      hasProcess := true, isReady := true, pending := [(1, 5000)], requestId := 1
      requestQueue := [⟨[("action", .str "status")], 5000⟩] }

/-- A log heap holding the service's two internal arrays. -/
def heap0 : Logs.LogHeap := ⟨[["boot failure"], ["started"]]⟩

/-- The service's internal `logs` object over `heap0`. -/
def logs0 : Logs.LogsRef := ⟨0, 1⟩

end Ex

/-! ## Shared helper lemmas -/

theorem jsTruthyV_natCast (n : Nat) (h : 0 < n) :
    jsTruthyV (.num (n : Int)) = true := by
  simp [jsTruthyV]
  omega

theorem jsTruthyV_str (t : String) (h : t ≠ "") :
    jsTruthyV (.str t) = true := by
  simp [jsTruthyV, h]

theorem keyOf_natCast (n : Nat) : PySpeech.keyOf (.num (n : Int)) = n := by
  simp [PySpeech.keyOf]

/-! ## C10 -/

/-- C10: for every input text that is empty, not a string, or whitespace
only, `synthesizeSpeech` fails immediately with `"Text cannot be empty"`,
with the service state untouched — nothing queued, no id assigned, nothing
written. -/
theorem synthesize_empty_text_rejected (s : PySpeech.PyState)
    (cfg : List (String × JsonVal)) (text : PySpeech.JSText)
    (h : text = .nonString ∨ ∃ t, text = .str t ∧ jsTrim t = "") :
    PySpeech.synthesizeSpeech s text cfg = (s, .error "Text cannot be empty") := by
  rcases h with h | ⟨t, ht, htrim⟩
  · subst h; rfl
  · subst ht
    simp [PySpeech.synthesizeSpeech, htrim]

theorem synthesize_empty_text_rejected_witness :
    ((PySpeech.JSText.str "  ") = .nonString
      ∨ ∃ t, (PySpeech.JSText.str "  ") = .str t ∧ jsTrim t = "")
  ∧ PySpeech.synthesizeSpeech Ex.pyReady (.str "  ") []
      = (Ex.pyReady, .error "Text cannot be empty") :=
  ⟨Or.inr ⟨"  ", rfl, by decide⟩,
   synthesize_empty_text_rejected Ex.pyReady [] (.str "  ")
     (Or.inr ⟨"  ", rfl, by decide⟩)⟩

/-! ## C2 -/

/-- C2 counterexample: a valid JSON-line success response whose `requestId`
names a pending entry registered by `_sendPromptToClaudeCode` does *not*
resolve the originating call with the stripped object: the stored resolve
calls `.match` on the object, the `TypeError` is caught, and the caller's
promise is rejected with `'Failed to parse Claude Code JSON response: …'`
— refuting the claim that every such response resolves the originating call
with the parsed object minus `requestId`. -/
theorem json_response_to_prompt_entry_rejects :
    ClaudeCode.handleResponseLine Ex.cPromptLive (.obj Ex.cOkResp)
      = .ok ({ Ex.cPromptLive with pending := [] },
             some ("1", .resolvedObj
               (Ex.cOkResp.filter (fun p => !(p.1 == "requestId")))))
  ∧ ClaudeCode.kindOf Ex.cPromptLive.pending "1" = .prompt
  ∧ ClaudeCode.callerView (ClaudeCode.kindOf Ex.cPromptLive.pending "1")
      (.resolvedObj (Ex.cOkResp.filter (fun p => !(p.1 == "requestId"))))
      = .rejected ("Failed to parse Claude Code JSON response: "
          ++ ClaudeCode.matchNotFunctionMsg)
  ∧ ClaudeCode.CCallerOutcome.isResolvedObj
      (ClaudeCode.callerView (ClaudeCode.kindOf Ex.cPromptLive.pending "1")
        (.resolvedObj (Ex.cOkResp.filter (fun p => !(p.1 == "requestId")))))
      = false :=
  ⟨rfl, rfl, rfl, rfl⟩

/-- C2 (amended): for every valid JSON-line response carrying a `requestId`
with a pending entry and no `error` field, the router removes the entry and
invokes the stored resolve with exactly the parsed object minus its
`requestId` binding (all other bindings preserved in order, nothing added).
In the python service, and in the claude service for entries registered by
`_sendRequest`, that resolves the originating call with the stripped
object; for claude entries registered by `_sendPromptToClaudeCode`, the
stored resolve calls `.match` on the object, the `TypeError` is caught, and
the originating call is instead rejected with
`'Failed to parse Claude Code JSON response: ' + error.message`. -/
theorem success_response_stripped_resolution_by_kind
    (s : PySpeech.PyState) (fs : List (String × JsonVal)) (n : Nat)
    (hpos : 0 < n)
    (hrid : lookupField fs "requestId" = some (.num (n : Int)))
    (hhas : PySpeech.pendingHas s.pending (.num (n : Int)) = true)
    (herr : lookupField fs "error" = none)
    (sc : ClaudeCode.CState) (gs : List (String × JsonVal)) (k : String)
    (hk : k ≠ "")
    (hridC : lookupField gs "requestId" = some (.str k))
    (hhasC : ClaudeCode.pendingHas sc.pending (.str k) = true)
    (herrC : lookupField gs "error" = none) :
    PySpeech.handlePythonResponse s (.obj fs)
      = .ok ({ s with pending := s.pending.filter (fun p => !(p.1 == n)) },
             some (n, .resolved (fs.filter (fun p => !(p.1 == "requestId")))))
  ∧ ClaudeCode.handleResponseLine sc (.obj gs)
      = .ok ({ sc with pending := sc.pending.filter (fun p => !(p.1 == k)) },
             some (k, .resolvedObj (gs.filter (fun p => !(p.1 == "requestId")))))
  ∧ (ClaudeCode.kindOf sc.pending k = .json →
      ClaudeCode.callerView (ClaudeCode.kindOf sc.pending k)
        (.resolvedObj (gs.filter (fun p => !(p.1 == "requestId"))))
        = .resolvedObj (gs.filter (fun p => !(p.1 == "requestId"))))
  ∧ (ClaudeCode.kindOf sc.pending k = .prompt →
      ClaudeCode.callerView (ClaudeCode.kindOf sc.pending k)
        (.resolvedObj (gs.filter (fun p => !(p.1 == "requestId"))))
        = .rejected ("Failed to parse Claude Code JSON response: "
            ++ ClaudeCode.matchNotFunctionMsg)) := by
  refine ⟨?_, ?_, ?_, ?_⟩
  · simp only [PySpeech.handlePythonResponse, getFieldJS, hrid, herr,
      jsTruthyV_natCast n hpos, hhas, Bool.and_self, if_true, jsTruthyOpt,
      keyOf_natCast, omitRequestId, Bool.false_eq_true, if_false]
  · simp only [ClaudeCode.handleResponseLine, getFieldJS, hridC, herrC,
      jsTruthyV_str k hk, hhasC, Bool.and_self, if_true, jsTruthyOpt,
      ClaudeCode.keyOf, omitRequestId, Bool.false_eq_true, if_false]
  · intro hkind
    rw [hkind]
    simp [ClaudeCode.callerView]
  · intro hkind
    rw [hkind]
    simp [ClaudeCode.callerView]

theorem success_response_stripped_resolution_by_kind_witness :
    PySpeech.pendingHas Ex.pyLive.pending (.num 1) = true
  ∧ lookupField Ex.okResp "error" = none
  ∧ ClaudeCode.pendingHas Ex.cLive.pending (.str "1") = true
  ∧ ClaudeCode.kindOf Ex.cLive.pending "1" = .json
  ∧ PySpeech.handlePythonResponse Ex.pyLive (.obj Ex.okResp)
      = .ok ({ Ex.pyLive with
                 pending := Ex.pyLive.pending.filter (fun p => !(p.1 == 1)) },
             some (1, .resolved (Ex.okResp.filter (fun p => !(p.1 == "requestId")))))
  ∧ ClaudeCode.handleResponseLine Ex.cLive (.obj Ex.cOkResp)
      = .ok ({ Ex.cLive with
                 pending := Ex.cLive.pending.filter (fun p => !(p.1 == "1")) },
             some ("1", .resolvedObj
               (Ex.cOkResp.filter (fun p => !(p.1 == "requestId")))))
  ∧ ClaudeCode.callerView (ClaudeCode.kindOf Ex.cLive.pending "1")
      (.resolvedObj (Ex.cOkResp.filter (fun p => !(p.1 == "requestId"))))
      = .resolvedObj (Ex.cOkResp.filter (fun p => !(p.1 == "requestId"))) := by
  have h := success_response_stripped_resolution_by_kind Ex.pyLive Ex.okResp 1
    (by decide) rfl rfl rfl Ex.cLive Ex.cOkResp "1" (by decide) rfl rfl rfl
  exact ⟨rfl, rfl, rfl, rfl, h.1, h.2.1, h.2.2.1 rfl⟩

/-! ## C1 -/

/-- C1 counterexample: a response carrying a pending `requestId` and the
non-empty error `"Audio format not supported"` is *resolved* by the python
router (with a recognition-error result object), not rejected — refuting the
claim that every such response rejects the originating call with the error
message. -/
theorem audio_format_error_resolves_not_rejects :
    PySpeech.handlePythonResponse Ex.pyLive (.obj Ex.audioErrResp)
      = .ok ({ Ex.pyLive with pending := [] },
             some (1, .resolved PySpeech.audioFormatUnsupportedResult))
  ∧ PySpeech.PyOutcome.isRejected
      (.resolved PySpeech.audioFormatUnsupportedResult) = false :=
  ⟨rfl, rfl⟩

/-- C1 (amended): a response carrying a pending `requestId` and a non-empty
`error` string rejects the originating call with exactly that message —
except in the python service when the error is `'Audio format not
supported'`, which instead resolves the call with
`{transcript: '', confidence: 0, error}`.  The claude router always rejects.
In all cases the pending entry is removed. -/
theorem error_response_rejects_except_audio_format
    (s : PySpeech.PyState) (fs fs2 : List (String × JsonVal)) (n : Nat)
    (e : String) (hpos : 0 < n)
    (hrid : lookupField fs "requestId" = some (.num (n : Int)))
    (hhas : PySpeech.pendingHas s.pending (.num (n : Int)) = true)
    (herr : lookupField fs "error" = some (.str e))
    (he : e ≠ "") (hne : e ≠ "Audio format not supported")
    (hrid2 : lookupField fs2 "requestId" = some (.num (n : Int)))
    (herr2 : lookupField fs2 "error" = some (.str "Audio format not supported"))
    (sc : ClaudeCode.CState) (gs : List (String × JsonVal)) (k : String)
    (e2 : String) (hk : k ≠ "")
    (hridC : lookupField gs "requestId" = some (.str k))
    (hhasC : ClaudeCode.pendingHas sc.pending (.str k) = true)
    (herrC : lookupField gs "error" = some (.str e2)) (he2 : e2 ≠ "") :
    PySpeech.handlePythonResponse s (.obj fs)
      = .ok ({ s with pending := s.pending.filter (fun p => !(p.1 == n)) },
             some (n, .rejected e))
  ∧ PySpeech.handlePythonResponse s (.obj fs2)
      = .ok ({ s with pending := s.pending.filter (fun p => !(p.1 == n)) },
             some (n, .resolved PySpeech.audioFormatUnsupportedResult))
  ∧ ClaudeCode.handleResponseLine sc (.obj gs)
      = .ok ({ sc with pending := sc.pending.filter (fun p => !(p.1 == k)) },
             some (k, .rejected e2)) := by
  have hn0 : ((n : Int) == 0) = false := by
    have hne0 : (n : Int) ≠ 0 := by
      exact_mod_cast Nat.pos_iff_ne_zero.mp hpos
    simp [hne0]
  have he' : (e == "") = false := by simp [he]
  have hne' : (e == "Audio format not supported") = false := by simp [hne]
  have he2' : (e2 == "") = false := by simp [he2]
  have hk' : (k == "") = false := by simp [hk]
  refine ⟨?_, ?_, ?_⟩
  · simp [PySpeech.handlePythonResponse, getFieldJS, hrid, herr, hn0, hhas,
      jsTruthyV, jsTruthyOpt, PySpeech.isAudioFormatErr, hne', he',
      keyOf_natCast, jsToString]
  · simp [PySpeech.handlePythonResponse, getFieldJS, hrid2, herr2, hn0, hhas,
      jsTruthyV, jsTruthyOpt, PySpeech.isAudioFormatErr, keyOf_natCast]
  · simp [ClaudeCode.handleResponseLine, getFieldJS, hridC, herrC, hk', hhasC,
      jsTruthyV, jsTruthyOpt, ClaudeCode.keyOf, jsToString, he2']

theorem error_response_rejects_except_audio_format_witness :
    PySpeech.pendingHas Ex.pyLive.pending (.num 1) = true
  ∧ lookupField Ex.plainErrResp "error" = some (.str "TTS engine failed")
  ∧ ClaudeCode.pendingHas Ex.cLive.pending (.str "1") = true
  ∧ PySpeech.handlePythonResponse Ex.pyLive (.obj Ex.plainErrResp)
      = .ok ({ Ex.pyLive with
                 pending := Ex.pyLive.pending.filter (fun p => !(p.1 == 1)) },
             some (1, .rejected "TTS engine failed"))
  ∧ PySpeech.handlePythonResponse Ex.pyLive (.obj Ex.audioErrResp)
      = .ok ({ Ex.pyLive with
                 pending := Ex.pyLive.pending.filter (fun p => !(p.1 == 1)) },
             some (1, .resolved PySpeech.audioFormatUnsupportedResult))
  ∧ ClaudeCode.handleResponseLine Ex.cLive (.obj Ex.cErrResp)
      = .ok ({ Ex.cLive with
                 pending := Ex.cLive.pending.filter (fun p => !(p.1 == "1")) },
             some ("1", .rejected "model overloaded")) := by
  have h := error_response_rejects_except_audio_format Ex.pyLive
    Ex.plainErrResp Ex.audioErrResp 1 "TTS engine failed" (by decide) rfl rfl
    rfl (by decide) (by decide) rfl rfl Ex.cLive Ex.cErrResp "1"
    "model overloaded" (by decide) rfl rfl rfl (by decide)
  exact ⟨rfl, rfl, rfl, h.1, h.2.1, h.2.2⟩

/-! ## C4 -/

/-- C4 counterexample: with the python service not running and its queue at
the 10-entry capacity, `sendRequest` fails that call by *returning a rejected
promise* (`Promise.reject(new Error('Request queue full'))` inside an
`async` function) — not by a synchronous throw, refuting the claim that the
queue-full failure is always thrown synchronously. -/
theorem python_queue_full_rejected_promise :
    PySpeech.sendRequest Ex.pyFull [("action", .str "synthesize")] 5000
      = (Ex.pyFull, .rejectedPromise "Request queue full")
  ∧ Ex.pyFull.requestQueue.length = 10
  ∧ PySpeech.PySendResult.isThrown
      (.rejectedPromise "Request queue full") = false :=
  ⟨rfl, rfl, rfl⟩

/-- C4 (amended): a call made while the process is not ready with the queue
at the 10-entry capacity fails immediately and leaves the 10 queued entries
(and everything else) untouched — synchronously thrown
(`'Request queue is full'`) only in the claude service's plain
`_sendRequest`; the `async` `_sendPromptToClaudeCode` surfaces the same
message as a rejected promise, and the python service's `async`
`sendRequest` likewise delivers a rejected promise
(`'Request queue full'`).  In both services the queue length never
exceeds 10. -/
theorem queue_full_failure_modes
    (s : PySpeech.PyState) (req : List (String × JsonVal)) (t : Int)
    (hrun : PySpeech.isRunningB s = false)
    (hq : PySpeech.maxQueueSize ≤ s.requestQueue.length)
    (sc : ClaudeCode.CState) (a : String) (d : List (String × JsonVal))
    (p : String) (tc : Int)
    (hready : sc.isReady = false)
    (hqc : ClaudeCode.maxQueueSize ≤ sc.requestQueue.length)
    (s2 : PySpeech.PyState) (req2 : List (String × JsonVal)) (t2 : Int)
    (hb : s2.requestQueue.length ≤ 10)
    (sc2 : ClaudeCode.CState) (a2 : String) (d2 : List (String × JsonVal))
    (t3 : Int) (hb2 : sc2.requestQueue.length ≤ 10) :
    PySpeech.sendRequest s req t = (s, .rejectedPromise "Request queue full")
  ∧ ClaudeCode.sendRequest sc a d tc = (sc, .thrownQueueFull)
  ∧ ClaudeCode.sendPrompt sc p tc
      = (sc, .rejectedPromise "Request queue is full")
  ∧ (PySpeech.sendRequest s2 req2 t2).1.requestQueue.length ≤ 10
  ∧ (ClaudeCode.sendRequest sc2 a2 d2 t3).1.requestQueue.length ≤ 10 := by
  refine ⟨?_, ?_, ?_, ?_, ?_⟩
  · simp [PySpeech.sendRequest, hrun, hq]
  · simp [ClaudeCode.sendRequest, hready, hqc]
  · simp [ClaudeCode.sendPrompt, hready, hqc]
  · by_cases hr : PySpeech.isRunningB s2
    · simp [PySpeech.sendRequest, hr, hb]
    · by_cases hfull : PySpeech.maxQueueSize ≤ s2.requestQueue.length
      · simp [PySpeech.sendRequest, hr, hfull, hb]
      · have h9 : s2.requestQueue.length < 10 := by
          simpa [PySpeech.maxQueueSize] using hfull
        simp [PySpeech.sendRequest, hr, hfull]
        omega
  · by_cases hr : sc2.isReady
    · simp [ClaudeCode.sendRequest, hr, hb2]
    · by_cases hfull : ClaudeCode.maxQueueSize ≤ sc2.requestQueue.length
      · simp [ClaudeCode.sendRequest, hr, hfull, hb2]
      · have h9 : sc2.requestQueue.length < 10 := by
          simpa [ClaudeCode.maxQueueSize] using hfull
        simp [ClaudeCode.sendRequest, hr, hfull]
        omega

theorem queue_full_failure_modes_witness :
    PySpeech.isRunningB Ex.pyFull = false
  ∧ PySpeech.maxQueueSize ≤ Ex.pyFull.requestQueue.length
  ∧ Ex.cFull.isReady = false
  ∧ ClaudeCode.maxQueueSize ≤ Ex.cFull.requestQueue.length
  ∧ PySpeech.sendRequest Ex.pyFull [("action", .str "status")] 5000
      = (Ex.pyFull, .rejectedPromise "Request queue full")
  ∧ ClaudeCode.sendRequest Ex.cFull "getStatus" [] 5000
      = (Ex.cFull, .thrownQueueFull)
  ∧ ClaudeCode.sendPrompt Ex.cFull "Generate a question" 10000
      = (Ex.cFull, .rejectedPromise "Request queue is full")
  ∧ (PySpeech.sendRequest Ex.pyReady [] 5000).1.requestQueue.length ≤ 10
  ∧ (ClaudeCode.sendRequest Ex.cFull "a" [] 1).1.requestQueue.length ≤ 10 := by
  have h := queue_full_failure_modes Ex.pyFull [("action", .str "status")] 5000
    rfl (by decide) Ex.cFull "getStatus" [] "Generate a question" 5000 rfl
    (by decide) Ex.pyReady [] 5000 (by decide) Ex.cFull "a" [] 1 (by decide)
  exact ⟨rfl, by decide, rfl, by decide, h.1, h.2.1, h.2.2.1, h.2.2.2.1,
    h.2.2.2.2⟩

/-! ## C8 -/

/-- C8 counterexample: registering a request with `timeoutMs = 0` is *not*
rejected: both services dispatch the request (a stdin write occurs, an id is
assigned) and arm the timer with the nonpositive value — refuting the claim
that a timeout ≤ 0 fails fast with an invalid-timeout error before arming a
timer or dispatching. -/
theorem zero_timeout_dispatches :
    PySpeech.sendRequest Ex.pyReady Ex.synthesizeReq 0
      = ({ Ex.pyReady with
             requestId := 1
             pending := [(1, 0)]
             writes := [⟨1, Ex.synthesizeReq⟩] }, .dispatched 1)
  ∧ ClaudeCode.sendRequest Ex.cLive "getStatus" [] 0
      = ({ Ex.cLive with
             requestId := 2
             pending := Ex.cLive.pending ++ [("2", ⟨.json, 0⟩)]
             writes := [.json "2" "getStatus" []] }, .dispatched "2") :=
  ⟨rfl, rfl⟩

/-- C8 (amended): neither service validates the timeout value.  A request
registered while the service is ready with any `timeoutMs`, including values
≤ 0, is dispatched normally: the id is assigned, the framed request is
written to the child's stdin, and the entry's timer is armed with exactly
the given value (which for a nonpositive value fires at once, later
rejecting with `'Request timeout'` — or resolving a recognition-timeout
result for `recognize`). -/
theorem nonpositive_timeout_accepted
    (s : PySpeech.PyState) (req : List (String × JsonVal)) (t : Int)
    (hrun : PySpeech.isRunningB s = true) (_ht : t ≤ 0)
    (sc : ClaudeCode.CState) (a : String) (d : List (String × JsonVal))
    (tc : Int) (hready : sc.isReady = true) (_htc : tc ≤ 0) :
    PySpeech.sendRequest s req t
      = ({ s with requestId := s.requestId + 1,
                  pending := s.pending ++ [(s.requestId + 1, t)],
                  writes := s.writes ++ [⟨s.requestId + 1, req⟩] },
         .dispatched (s.requestId + 1))
  ∧ ClaudeCode.sendRequest sc a d tc
      = ({ sc with requestId := sc.requestId + 1,
                   pending := sc.pending
                     ++ [(toString (sc.requestId + 1), ⟨.json, tc⟩)],
                   writes := sc.writes ++ [.json (toString (sc.requestId + 1)) a d] },
         .dispatched (toString (sc.requestId + 1))) := by
  constructor
  · simp [PySpeech.sendRequest, hrun]
  · simp [ClaudeCode.sendRequest, hready]

theorem nonpositive_timeout_accepted_witness :
    PySpeech.isRunningB Ex.pyReady = true
  ∧ (-5 : Int) ≤ 0
  ∧ Ex.cLive.isReady = true
  ∧ PySpeech.sendRequest Ex.pyReady Ex.recognizeReq (-5)
      = ({ Ex.pyReady with
             requestId := 1
             pending := [(1, -5)]
             writes := [⟨1, Ex.recognizeReq⟩] }, .dispatched 1)
  ∧ ClaudeCode.sendRequest Ex.cLive "updateConfig" [] (-5)
      = ({ Ex.cLive with
             requestId := 2
             pending := Ex.cLive.pending ++ [("2", ⟨.json, -5⟩)]
             writes := [.json "2" "updateConfig" []] }, .dispatched "2") := by
  have h := nonpositive_timeout_accepted Ex.pyReady Ex.recognizeReq (-5) rfl
    (by decide) Ex.cLive "updateConfig" [] (-5) rfl (by decide)
  exact ⟨rfl, by decide, rfl, h.1, h.2⟩

/-! ## C6 -/

/-- C6 counterexample: the python service's exit handler tests only
`code !== 0`, and JS `null !== 0` holds — so an exit with a *null* code
(e.g. the SIGTERM termination that `stop()` itself causes) still schedules
a restart, refuting the claim that a restart is scheduled only for a
non-zero, non-null exit code and that `stop()` prevents any further restart
attempt. -/
theorem python_null_exit_schedules_restart :
    (PySpeech.onExit Ex.pyLive none).2 = some 1000
  ∧ ¬((PySpeech.onExit Ex.pyLive none).2 = none) :=
  ⟨rfl, by decide⟩

/-- C6 (amended): every observed exit clears readiness and the process
handle.  The claude service schedules exactly one restart attempt, after a
fixed 1000 ms delay, iff the exit code is non-zero and non-null (restart
failures are swallowed by `.catch(() => {})`).  The python service schedules
its restart iff the code differs from 0 — *including* a null code, such as
the one produced by `stop()`'s SIGTERM: neither service consults a stopping
flag, so in the python service an explicit stop is followed by a restart
attempt. -/
theorem exit_restart_schedule (s : PySpeech.PyState) (sc : ClaudeCode.CState)
    (code : Option Int) :
    ((PySpeech.onExit s code).2 = some 1000 ↔ code ≠ some 0)
  ∧ ((ClaudeCode.onExit sc code).2 = some 1000 ↔ ∃ m, code = some m ∧ m ≠ 0)
  ∧ (PySpeech.onExit s code).1.isReady = false
  ∧ (PySpeech.onExit s code).1.hasProcess = false
  ∧ (ClaudeCode.onExit sc code).1.isReady = false
  ∧ (ClaudeCode.onExit sc code).1.hasProcess = false := by
  refine ⟨?_, ?_, ?_, ?_, ?_, ?_⟩
  · by_cases h : code = some 0 <;> simp [PySpeech.onExit, h]
  · cases code with
    | none => simp [ClaudeCode.onExit]
    | some m => by_cases h : m = 0 <;> simp [ClaudeCode.onExit, h]
  · by_cases h : code = some 0 <;> simp [PySpeech.onExit, h]
  · by_cases h : code = some 0 <;> simp [PySpeech.onExit, h]
  · cases code with
    | none => simp [ClaudeCode.onExit]
    | some m => by_cases h : m = 0 <;> simp [ClaudeCode.onExit, h]
  · cases code with
    | none => simp [ClaudeCode.onExit]
    | some m => by_cases h : m = 0 <;> simp [ClaudeCode.onExit, h]

/-! ## C7 -/

/-- C7 counterexample: stopping the claude service with an in-flight call
(id `"1"`) settles nothing — `stop()` ends in `reset()`, which clears the
pending table without rejecting its entries (the rejection list is empty),
and the call's armed timer subsequently finds no entry and also performs no
rejection, leaving the caller's promise permanently unsettled.  This refutes
the claim that every pending call is rejected with a stopped error. -/
theorem claude_stop_settles_nothing :
    (ClaudeCode.stop Ex.cBusy).2 = []
  ∧ Ex.cBusy.pending = [("1", ⟨.json, 10000⟩)]
  ∧ (ClaudeCode.stop Ex.cBusy).1.pending = []
  ∧ (ClaudeCode.timeoutFire (ClaudeCode.stop Ex.cBusy).1 "1").2 = none :=
  ⟨rfl, rfl, rfl, rfl⟩

/-- C7 (amended): on a started bridge, the python service's `stop()` rejects
every pending in-flight call with `'Service stopped'` and clears the table,
but leaves queued not-yet-dispatched calls sitting in the request queue
unsettled; the claude service's `stop()` fully resets internal state (so a
subsequent `start()` is a fresh session) while settling *neither* pending
nor queued calls — no stopped-error rejection is delivered by it at all. -/
theorem stop_settlement_behavior
    (s : PySpeech.PyState) (hs : s.hasProcess = true)
    (sc : ClaudeCode.CState) (hsc : sc.hasProcess = true) :
    (PySpeech.stop s).2 = s.pending.map (fun p => (p.1, "Service stopped"))
  ∧ (PySpeech.stop s).1.pending = []
  ∧ (PySpeech.stop s).1.requestQueue = s.requestQueue
  ∧ (PySpeech.stop s).1.hasProcess = false
  ∧ (PySpeech.stop s).1.isReady = false
  ∧ (ClaudeCode.stop sc).2 = []
  ∧ (ClaudeCode.stop sc).1 = ClaudeCode.resetOf sc := by
  refine ⟨?_, ?_, ?_, ?_, ?_, ?_, ?_⟩ <;>
    simp [PySpeech.stop, ClaudeCode.stop, hs, hsc]

theorem stop_settlement_behavior_witness :
    Ex.pyBusy.hasProcess = true
  ∧ Ex.cBusy.hasProcess = true
  ∧ (PySpeech.stop Ex.pyBusy).2 = [(1, "Service stopped")]
  ∧ (PySpeech.stop Ex.pyBusy).1.requestQueue = Ex.pyBusy.requestQueue
  ∧ (ClaudeCode.stop Ex.cBusy).2 = [] := by
  have h := stop_settlement_behavior Ex.pyBusy rfl Ex.cBusy rfl
  exact ⟨rfl, rfl, h.1.trans rfl, h.2.2.1, h.2.2.2.2.2.1⟩

/-! ## C9 -/

theorem logHeap_read_write_ne (h : Logs.LogHeap) (i j : Nat)
    (v : List String) (hij : i ≠ j) : (h.write i v).read j = h.read j := by
  simp [Logs.LogHeap.read, Logs.LogHeap.write, List.get?_eq_getElem?,
    List.getElem?_set_ne hij]

theorem logHeap_push_read_ne (h : Logs.LogHeap) (i j : Nat) (x : String)
    (hij : i ≠ j) : (h.push i x).read j = h.read j :=
  logHeap_read_write_ne _ i j _ hij

theorem logHeap_read_alloc (h : Logs.LogHeap) (v : List String) (j : Nat)
    (hj : j < h.arrs.length) : (h.alloc v).1.read j = h.read j := by
  simp [Logs.LogHeap.read, Logs.LogHeap.alloc, List.get?_eq_getElem?,
    List.getElem?_append_left hj]

theorem pushAll_read_ne (snap : Logs.LogsRef) (j : Nat)
    (muts : List (Bool × String)) (h : Logs.LogHeap)
    (hje : j ≠ snap.errorsRef) (hji : j ≠ snap.infoRef) :
    (Logs.pushAll h snap muts).read j = h.read j := by
  induction muts generalizing h with
  | nil => rfl
  | cons m rest ih =>
    have hstep :
        (Logs.LogHeap.push h (if m.1 then snap.errorsRef else snap.infoRef)
          m.2).read j = h.read j := by
      by_cases hm : m.1
      · simp only [hm, if_true]
        exact logHeap_push_read_ne _ _ _ _ (fun he => hje he.symm)
      · simp only [hm, if_false]
        exact logHeap_push_read_ne _ _ _ _ (fun hi => hji hi.symm)
    calc (Logs.pushAll h snap (m :: rest)).read j
        = (Logs.pushAll (Logs.LogHeap.push h
            (if m.1 then snap.errorsRef else snap.infoRef) m.2) snap rest).read j := rfl
      _ = _ := by rw [ih _, hstep]

/-- C9 counterexample: the python service's `getLogs()` is `{ ...this.logs }`,
a shallow copy: the returned snapshot holds the *same* array references as
the internal `logs` object, so a caller pushing onto the snapshot's `errors`
array mutates the service's internal error log — refuting the claim that the
snapshot shares no mutable structure with the internal buffers. -/
theorem python_getLogs_shares_arrays :
    (Logs.getLogsPython Ex.heap0 Ex.logs0).2 = Ex.logs0
  ∧ Ex.heap0.read Ex.logs0.errorsRef = ["boot failure"]
  ∧ (Logs.LogHeap.push (Logs.getLogsPython Ex.heap0 Ex.logs0).1
       (Logs.getLogsPython Ex.heap0 Ex.logs0).2.errorsRef "caller junk").read
       Ex.logs0.errorsRef = ["boot failure", "caller junk"] :=
  ⟨rfl, rfl, rfl⟩

/-- C9 (amended): the claude service's `getLogs()` returns freshly allocated
copies of both log arrays, so any sequence of caller mutations applied
through the snapshot leaves the internal error and info logs unchanged; the
python service's `getLogs()` returns a fresh top-level object whose fields
alias the internal arrays, so only top-level reassignment is isolated —
mutating the returned arrays mutates the internal logs. -/
theorem getLogs_snapshot_isolation
    (h : Logs.LogHeap) (r : Logs.LogsRef) (muts : List (Bool × String))
    (he : r.errorsRef < h.arrs.length) (hi : r.infoRef < h.arrs.length) :
    (Logs.pushAll (Logs.getLogsClaude h r).1 (Logs.getLogsClaude h r).2
        muts).read r.errorsRef = h.read r.errorsRef
  ∧ (Logs.pushAll (Logs.getLogsClaude h r).1 (Logs.getLogsClaude h r).2
        muts).read r.infoRef = h.read r.infoRef
  ∧ (Logs.getLogsPython h r).2 = r :=
  have hsnapE : (Logs.getLogsClaude h r).2.errorsRef = h.arrs.length := rfl
  have hsnapI : (Logs.getLogsClaude h r).2.infoRef = h.arrs.length + 1 := by
    simp [Logs.getLogsClaude, Logs.LogHeap.alloc]
  have hlen1 : r.errorsRef < (h.alloc (h.read r.errorsRef)).1.arrs.length := by
    simp [Logs.LogHeap.alloc]
    omega
  have hlen2 : r.infoRef < (h.alloc (h.read r.errorsRef)).1.arrs.length := by
    simp [Logs.LogHeap.alloc]
    omega
  ⟨by
    rw [pushAll_read_ne _ _ _ _ (by rw [hsnapE]; omega) (by rw [hsnapI]; omega)]
    show ((h.alloc (h.read r.errorsRef)).1.alloc _).1.read r.errorsRef = _
    rw [logHeap_read_alloc _ _ _ hlen1, logHeap_read_alloc _ _ _ he],
   by
    rw [pushAll_read_ne _ _ _ _ (by rw [hsnapE]; omega) (by rw [hsnapI]; omega)]
    show ((h.alloc (h.read r.errorsRef)).1.alloc _).1.read r.infoRef = _
    rw [logHeap_read_alloc _ _ _ hlen2, logHeap_read_alloc _ _ _ hi],
   rfl⟩

theorem getLogs_snapshot_isolation_witness :
    Ex.logs0.errorsRef < Ex.heap0.arrs.length
  ∧ Ex.logs0.infoRef < Ex.heap0.arrs.length
  ∧ (Logs.pushAll (Logs.getLogsClaude Ex.heap0 Ex.logs0).1
        (Logs.getLogsClaude Ex.heap0 Ex.logs0).2
        [(true, "caller junk"), (false, "more junk")]).read
        Ex.logs0.errorsRef = Ex.heap0.read Ex.logs0.errorsRef
  ∧ (Logs.getLogsPython Ex.heap0 Ex.logs0).2 = Ex.logs0 := by
  have h := getLogs_snapshot_isolation Ex.heap0 Ex.logs0
    [(true, "caller junk"), (false, "more junk")] (by decide) (by decide)
  exact ⟨by decide, by decide, h.1, h.2.2⟩

/-! ## C5 -/

theorem pyEnqueueAll_not_running
    (calls : List (List (String × JsonVal) × Int)) (s : PySpeech.PyState)
    (hrun : PySpeech.isRunningB s = false)
    (hlen : s.requestQueue.length + calls.length ≤ 10) :
    PySpeech.enqueueAll s calls
      = { s with requestQueue :=
            s.requestQueue ++ calls.map PySpeech.mkQueued } := by
  induction calls generalizing s with
  | nil => simp [PySpeech.enqueueAll]
  | cons c rest ih =>
    have hq : ¬ (PySpeech.maxQueueSize ≤ s.requestQueue.length) := by
      simp only [PySpeech.maxQueueSize]
      simp only [List.length_cons] at hlen
      omega
    have hstep : (PySpeech.sendRequest s c.1 c.2).1
        = { s with requestQueue :=
              s.requestQueue ++ [PySpeech.mkQueued c] } := by
      simp [PySpeech.sendRequest, hrun, hq, PySpeech.mkQueued]
    show PySpeech.enqueueAll (PySpeech.sendRequest s c.1 c.2).1 rest = _
    rw [hstep]
    have hrec := ih
      { s with requestQueue := s.requestQueue ++ [PySpeech.mkQueued c] } hrun
      (by simp only [List.length_append, List.length_cons,
            List.length_nil] at *; omega)
    rw [hrec]
    simp

theorem pyProcessQueueGo_running (qs : List PySpeech.PyQueued)
    (s : PySpeech.PyState) (hrun : PySpeech.isRunningB s = true) :
    PySpeech.processQueueGo qs s
      = { s with requestId := s.requestId + qs.length
                 pending := s.pending ++ PySpeech.armedEntries s.requestId qs
                 writes := s.writes ++ PySpeech.expectedWrites s.requestId qs } := by
  induction qs generalizing s with
  | nil => simp [PySpeech.processQueueGo, PySpeech.armedEntries,
      PySpeech.expectedWrites]
  | cons q rest ih =>
    have hstep : (PySpeech.sendRequest s q.request q.timeout).1
        = { s with requestId := s.requestId + 1
                   pending := s.pending ++ [(s.requestId + 1, q.timeout)]
                   writes := s.writes ++ [⟨s.requestId + 1, q.request⟩] } := by
      simp [PySpeech.sendRequest, hrun]
    show (if PySpeech.isRunningB s = true then
        PySpeech.processQueueGo rest (PySpeech.sendRequest s q.request q.timeout).1
      else { s with requestQueue := q :: rest }) = _
    rw [if_pos hrun, hstep]
    have hrec := ih
      { s with requestId := s.requestId + 1
               pending := s.pending ++ [(s.requestId + 1, q.timeout)]
               writes := s.writes ++ [⟨s.requestId + 1, q.request⟩] } hrun
    rw [hrec]
    simp [PySpeech.armedEntries, PySpeech.expectedWrites]
    try omega

theorem cEnqueueAll_not_ready (calls : List ClaudeCode.CQueued)
    (s : ClaudeCode.CState) (hready : s.isReady = false)
    (hlen : s.requestQueue.length + calls.length ≤ 10) :
    ClaudeCode.enqueueAll s calls
      = { s with requestQueue := s.requestQueue ++ calls } := by
  induction calls generalizing s with
  | nil => simp [ClaudeCode.enqueueAll]
  | cons c rest ih =>
    have hq : ¬ (ClaudeCode.maxQueueSize ≤ s.requestQueue.length) := by
      simp only [ClaudeCode.maxQueueSize]
      simp only [List.length_cons] at hlen
      omega
    have hstep : ClaudeCode.enqueueCall s c
        = { s with requestQueue := s.requestQueue ++ [c] } := by
      cases c with
      | json a d t => simp [ClaudeCode.enqueueCall, ClaudeCode.sendRequest,
          hready, hq]
      | prompt p t => simp [ClaudeCode.enqueueCall, ClaudeCode.sendPrompt,
          hready, hq]
    show ClaudeCode.enqueueAll (ClaudeCode.enqueueCall s c) rest = _
    rw [hstep]
    have hrec := ih { s with requestQueue := s.requestQueue ++ [c] } hready
      (by simp only [List.length_append, List.length_cons,
            List.length_nil] at *; omega)
    rw [hrec]
    simp

theorem cProcessQueueGo_ready (qs : List ClaudeCode.CQueued)
    (s : ClaudeCode.CState) (hready : s.isReady = true) :
    ClaudeCode.processQueueGo qs s
      = { s with requestId := s.requestId + qs.length
                 pending := s.pending ++ ClaudeCode.armedEntries s.requestId qs
                 writes := s.writes ++ ClaudeCode.expectedWrites s.requestId qs } := by
  induction qs generalizing s with
  | nil => simp [ClaudeCode.processQueueGo, ClaudeCode.armedEntries,
      ClaudeCode.expectedWrites]
  | cons q rest ih =>
    cases q with
    | json a d t =>
      have hstep : (ClaudeCode.sendRequest s a d t).1
          = { s with requestId := s.requestId + 1
                     pending := s.pending
                       ++ [(toString (s.requestId + 1), ⟨.json, t⟩)]
                     writes := s.writes ++ [.json (toString (s.requestId + 1)) a d] } := by
        simp [ClaudeCode.sendRequest, hready]
      show (if s.isReady = true then
          ClaudeCode.processQueueGo rest (ClaudeCode.sendRequest s a d t).1
        else { s with requestQueue := .json a d t :: rest }) = _
      rw [if_pos hready, hstep]
      have hrec := ih
        { s with requestId := s.requestId + 1
                 pending := s.pending
                   ++ [(toString (s.requestId + 1), ⟨.json, t⟩)]
                 writes := s.writes ++
                   [.json (toString (s.requestId + 1)) a d] } hready
      rw [hrec]
      simp [ClaudeCode.armedEntries, ClaudeCode.expectedWrites]
      try omega
    | prompt p t =>
      have hstep : (ClaudeCode.sendPrompt s p t).1
          = { s with requestId := s.requestId + 1
                     pending := s.pending
                       ++ [(toString (s.requestId + 1), ⟨.prompt, t⟩)]
                     writes := s.writes ++
                       [.raw (ClaudeCode.promptFrame (toString (s.requestId + 1)) p)] } := by
        simp [ClaudeCode.sendPrompt, hready]
      show (if s.isReady = true then
          ClaudeCode.processQueueGo rest (ClaudeCode.sendPrompt s p t).1
        else { s with requestQueue := .prompt p t :: rest }) = _
      rw [if_pos hready, hstep]
      have hrec := ih
        { s with requestId := s.requestId + 1
                 pending := s.pending
                   ++ [(toString (s.requestId + 1), ⟨.prompt, t⟩)]
                 writes := s.writes ++
                   [.raw (ClaudeCode.promptFrame (toString (s.requestId + 1)) p)] } hready
      rw [hrec]
      simp [ClaudeCode.armedEntries, ClaudeCode.expectedWrites]
      try omega

theorem pyStart_of_fresh (q : List PySpeech.PyQueued) :
    PySpeech.start
      { hasProcess := false, isReady := false, requestQueue := q, pending := []
        requestId := 0, errors := [], info := [], writes := [] }
      = { hasProcess := true, isReady := true, requestQueue := [],
          pending := PySpeech.armedEntries 0 q, requestId := q.length,
          errors := [], info := [], writes := PySpeech.expectedWrites 0 q } := by
  show PySpeech.processQueueGo q
      { hasProcess := true, isReady := true, requestQueue := [], pending := []
        requestId := 0, errors := [], info := [], writes := [] } = _
  rw [pyProcessQueueGo_running q
    { hasProcess := true, isReady := true, requestQueue := [], pending := []
      requestId := 0, errors := [], info := [], writes := [] } rfl]
  simp

theorem cBecomeReady_of_fresh (q : List ClaudeCode.CQueued) :
    ClaudeCode.becomeReady
      { hasProcess := true, isReady := false, requestQueue := q, pending := []
        requestId := 0, errors := [], info := [], writes := [] }
      = { hasProcess := true, isReady := true, requestQueue := [],
          pending := ClaudeCode.armedEntries 0 q, requestId := q.length,
          errors := [], info := [], writes := ClaudeCode.expectedWrites 0 q } := by
  show ClaudeCode.processQueueGo q
      { hasProcess := true, isReady := true, requestQueue := [], pending := []
        requestId := 0, errors := [], info := [], writes := [] } = _
  rw [cProcessQueueGo_ready q
    { hasProcess := true, isReady := true, requestQueue := [], pending := []
      requestId := 0, errors := [], info := [], writes := [] } rfl]
  simp

/-- C5: queueing N ≤ 10 calls on a fresh service while the process is not
ready, then transitioning to ready, dispatches them to the subprocess in
exactly submission order — the drain re-dispatches each queued entry through
the same `sendRequest` / `_sendPromptToClaudeCode` send path used for live
calls, producing consecutive ids and one stdin write per call, in order, and
leaves the queue empty. -/
theorem queued_calls_dispatch_fifo
    (pcalls : List (List (String × JsonVal) × Int)) (hp : pcalls.length ≤ 10)
    (ccalls : List ClaudeCode.CQueued) (hc : ccalls.length ≤ 10) :
    (PySpeech.start (PySpeech.enqueueAll PySpeech.initial pcalls)).writes
      = PySpeech.expectedWrites 0 (pcalls.map PySpeech.mkQueued)
  ∧ (PySpeech.start (PySpeech.enqueueAll PySpeech.initial pcalls)).requestQueue
      = []
  ∧ (ClaudeCode.becomeReady
      (ClaudeCode.enqueueAll ClaudeCode.initial ccalls)).writes
      = ClaudeCode.expectedWrites 0 ccalls
  ∧ (ClaudeCode.becomeReady
      (ClaudeCode.enqueueAll ClaudeCode.initial ccalls)).requestQueue = [] := by
  have hpy := pyEnqueueAll_not_running pcalls PySpeech.initial rfl
    (by simpa [PySpeech.initial] using hp)
  have hpy2 : PySpeech.enqueueAll PySpeech.initial pcalls
      = { hasProcess := false, isReady := false
          requestQueue := pcalls.map PySpeech.mkQueued, pending := []
          requestId := 0, errors := [], info := [], writes := [] } := by
    rw [hpy]; rfl
  have hcl := cEnqueueAll_not_ready ccalls ClaudeCode.initial rfl
    (by simpa [ClaudeCode.initial] using hc)
  have hcl2 : ClaudeCode.enqueueAll ClaudeCode.initial ccalls
      = { hasProcess := true, isReady := false
          requestQueue := ccalls, pending := []
          requestId := 0, errors := [], info := [], writes := [] } := by
    rw [hcl]; rfl
  rw [hpy2, hcl2, pyStart_of_fresh, cBecomeReady_of_fresh]
  exact ⟨rfl, rfl, rfl, rfl⟩

theorem queued_calls_dispatch_fifo_witness :
    ([([("action", JsonVal.str "status")], (5000 : Int)),
      ([("action", JsonVal.str "synthesize")], 10000)].length ≤ 10)
  ∧ (PySpeech.start (PySpeech.enqueueAll PySpeech.initial
        [([("action", JsonVal.str "status")], 5000),
         ([("action", JsonVal.str "synthesize")], 10000)])).writes
      = PySpeech.expectedWrites 0
          ([([("action", JsonVal.str "status")], (5000 : Int)),
            ([("action", JsonVal.str "synthesize")], 10000)].map
            PySpeech.mkQueued)
  ∧ PySpeech.expectedWrites 0
        ([([("action", JsonVal.str "status")], (5000 : Int)),
          ([("action", JsonVal.str "synthesize")], 10000)].map
          PySpeech.mkQueued)
      = [⟨1, [("action", JsonVal.str "status")]⟩,
         ⟨2, [("action", JsonVal.str "synthesize")]⟩]
  ∧ (ClaudeCode.becomeReady (ClaudeCode.enqueueAll ClaudeCode.initial
        [.json "getStatus" [] 5000, .prompt "Ask a question" 10000])).writes
      = ClaudeCode.expectedWrites 0
          [.json "getStatus" [] 5000, .prompt "Ask a question" 10000]
  ∧ ClaudeCode.expectedWrites 0
        [.json "getStatus" [] 5000, .prompt "Ask a question" 10000]
      = [.json "1" "getStatus" [],
         .raw (ClaudeCode.promptFrame "2" "Ask a question")] := by
  have h := queued_calls_dispatch_fifo
    [([("action", JsonVal.str "status")], 5000),
     ([("action", JsonVal.str "synthesize")], 10000)] (by decide)
    [.json "getStatus" [] 5000, .prompt "Ask a question" 10000] (by decide)
  exact ⟨by decide, h.1, rfl, h.2.2.1, rfl⟩

/-! ## C3 -/

theorem handlePythonResponse_miss (s : PySpeech.PyState) (v : JsonVal)
    (h : PySpeech.respHits s.pending v = false) :
    PySpeech.handlePythonResponse s v = .error ()
  ∨ PySpeech.handlePythonResponse s v = .ok (s, none) := by
  unfold PySpeech.respHits at h
  unfold PySpeech.handlePythonResponse
  split
  · exact Or.inl rfl
  · rename_i ridOpt heq
    split
    · exact Or.inr rfl
    · rename_i rid
      rw [heq] at h
      simp only at h
      rw [if_neg (by simp [h])]
      exact Or.inr rfl

theorem handlePythonResponse_ok_none (s s1 : PySpeech.PyState) (v : JsonVal)
    (h : PySpeech.handlePythonResponse s v = .ok (s1, none)) :
    s1 = s := by
  unfold PySpeech.handlePythonResponse at h
  split at h
  · exact absurd h (by simp)
  · split at h
    · simp only [Except.ok.injEq, Prod.mk.injEq] at h
      exact h.1.symm
    · split at h
      · split at h
        · exact absurd h (by simp)
        · split at h
          · split at h
            · exact absurd h (by simp)
            · exact absurd h (by simp)
          · exact absurd h (by simp)
      · simp only [Except.ok.injEq, Prod.mk.injEq] at h
        exact h.1.symm

theorem pendingHas_any (pending : List (Nat × Int)) (rid : JsonVal)
    (h : PySpeech.pendingHas pending rid = true) :
    pending.any (fun p => p.1 == PySpeech.keyOf rid) = true := by
  cases rid with
  | num m =>
    simp only [PySpeech.pendingHas] at h
    simp only [PySpeech.keyOf]
    rw [List.any_eq_true] at h ⊢
    obtain ⟨p, hp, hpm⟩ := h
    refine ⟨p, hp, ?_⟩
    have hm : (p.1 : Int) = m := by simpa using hpm
    have hm2 : m.toNat = p.1 := by omega
    simp [hm2]
  | str a => exact absurd h (by simp [PySpeech.pendingHas])
  | boolean b => exact absurd h (by simp [PySpeech.pendingHas])
  | null => exact absurd h (by simp [PySpeech.pendingHas])
  | obj fs => exact absurd h (by simp [PySpeech.pendingHas])
  | arr es => exact absurd h (by simp [PySpeech.pendingHas])

theorem handlePythonResponse_hit (s : PySpeech.PyState) (v : JsonVal)
    (s1 : PySpeech.PyState) (k : Nat) (oc : PySpeech.PyOutcome)
    (h : PySpeech.handlePythonResponse s v = .ok (s1, some (k, oc))) :
    s1.pending = s.pending.filter (fun p => !(p.1 == k))
  ∧ s.pending.any (fun p => p.1 == k) = true := by
  unfold PySpeech.handlePythonResponse at h
  split at h
  · exact absurd h (by simp)
  · split at h
    · exact absurd h (by simp)
    · rename_i rid heq2
      split at h
      · rename_i hguard
        have hhas : PySpeech.pendingHas s.pending rid = true := by
          simp only [Bool.and_eq_true] at hguard
          exact hguard.2
        have hany := pendingHas_any s.pending rid hhas
        split at h
        · exact absurd h (by simp)
        · split at h
          · split at h
            · simp only [Except.ok.injEq, Prod.mk.injEq,
                Option.some.injEq] at h
              obtain ⟨hs1, hk, _⟩ := h
              subst hk
              exact ⟨by rw [← hs1], hany⟩
            · simp only [Except.ok.injEq, Prod.mk.injEq,
                Option.some.injEq] at h
              obtain ⟨hs1, hk, _⟩ := h
              subst hk
              exact ⟨by rw [← hs1], hany⟩
          · simp only [Except.ok.injEq, Prod.mk.injEq,
              Option.some.injEq] at h
            obtain ⟨hs1, hk, _⟩ := h
            subst hk
            exact ⟨by rw [← hs1], hany⟩
      · exact absurd h (by simp)

theorem pyFoldl_acc (ls : List RawLine) (s : PySpeech.PyState)
    (outs : List (Nat × PySpeech.PyOutcome)) :
    ls.foldl PySpeech.onStdoutLine (s, outs)
      = ((ls.foldl PySpeech.onStdoutLine (s, [])).1,
         outs ++ (ls.foldl PySpeech.onStdoutLine (s, [])).2) := by
  induction ls generalizing s outs with
  | nil => simp
  | cons l rest ih =>
    have hline : PySpeech.onStdoutLine (s, outs) l
        = ((PySpeech.onStdoutLine (s, []) l).1,
           outs ++ (PySpeech.onStdoutLine (s, []) l).2) := by
      unfold PySpeech.onStdoutLine
      cases l.parsed with
      | none => simp
      | some v =>
        cases hh : PySpeech.handlePythonResponse s v with
        | error e => cases e; simp [hh]
        | ok pr =>
          obtain ⟨sx, o⟩ := pr
          cases o <;> simp [hh]
    rw [List.foldl_cons, List.foldl_cons, hline]
    rw [ih (PySpeech.onStdoutLine (s, []) l).1
          (outs ++ (PySpeech.onStdoutLine (s, []) l).2),
        ih (PySpeech.onStdoutLine (s, []) l).1
          (PySpeech.onStdoutLine (s, []) l).2]
    simp

theorem pyOnStdout_cons (s : PySpeech.PyState) (l : RawLine)
    (rest : List RawLine) :
    PySpeech.onStdout s (l :: rest)
      = ((PySpeech.onStdout (PySpeech.onStdoutLine (s, []) l).1 rest).1,
         (PySpeech.onStdoutLine (s, []) l).2
           ++ (PySpeech.onStdout (PySpeech.onStdoutLine (s, []) l).1 rest).2) := by
  unfold PySpeech.onStdout
  rw [List.foldl_cons]
  exact pyFoldl_acc rest (PySpeech.onStdoutLine (s, []) l).1
    (PySpeech.onStdoutLine (s, []) l).2

theorem pyOnStdoutLine_cases (s : PySpeech.PyState) (l : RawLine) :
    ((PySpeech.onStdoutLine (s, []) l).2 = []
      ∧ (PySpeech.onStdoutLine (s, []) l).1.pending = s.pending)
  ∨ (∃ k oc, (PySpeech.onStdoutLine (s, []) l).2 = [(k, oc)]
      ∧ s.pending.any (fun p => p.1 == k) = true
      ∧ (PySpeech.onStdoutLine (s, []) l).1.pending
          = s.pending.filter (fun p => !(p.1 == k))) := by
  unfold PySpeech.onStdoutLine
  cases l.parsed with
  | none => left; simp
  | some v =>
    cases hh : PySpeech.handlePythonResponse s v with
    | error e => cases e; left; simp [hh]
    | ok pr =>
      obtain ⟨sx, o⟩ := pr
      cases o with
      | none =>
        left
        have hs := handlePythonResponse_ok_none s sx v hh
        subst hs
        simp [hh]
      | some ko =>
        right
        obtain ⟨k, oc⟩ := ko
        have hhit := handlePythonResponse_hit s v sx k oc hh
        refine ⟨k, oc, by simp [hh], hhit.2, ?_⟩
        simp only [hh]
        exact hhit.1

theorem pyOnStdout_absent (ls : List RawLine) (s : PySpeech.PyState) (n : Nat)
    (h : s.pending.all (fun p => !(p.1 == n)) = true) :
    (PySpeech.onStdout s ls).2.all (fun o => !(o.1 == n)) = true
  ∧ (PySpeech.onStdout s ls).1.pending.all (fun p => !(p.1 == n)) = true := by
  induction ls generalizing s with
  | nil => exact ⟨rfl, h⟩
  | cons l rest ih =>
    rw [pyOnStdout_cons]
    rcases pyOnStdoutLine_cases s l with ⟨ho, hp⟩ | ⟨k, oc, ho, hk, hp⟩
    · have hnext := ih (PySpeech.onStdoutLine (s, []) l).1 (by rw [hp]; exact h)
      simp [ho, hnext.1, hnext.2]
    · have hkn : (k == n) = false := by
        rw [List.any_eq_true] at hk
        obtain ⟨p, hpmem, hpk⟩ := hk
        rw [List.all_eq_true] at h
        have hpn := h p hpmem
        have hpk2 : p.1 = k := by simpa using hpk
        have hpn2 : p.1 ≠ n := by simpa using hpn
        have hkne : k ≠ n := hpk2 ▸ hpn2
        simp [hkne]
      have habs : (PySpeech.onStdoutLine (s, []) l).1.pending.all
          (fun p => !(p.1 == n)) = true := by
        rw [hp]
        rw [List.all_eq_true] at h ⊢
        intro p hpmem
        exact h p (List.mem_of_mem_filter hpmem)
      have hnext := ih (PySpeech.onStdoutLine (s, []) l).1 habs
      simp [ho, hnext.1, hnext.2, List.all_append, hkn]

theorem pyOnStdout_settles_once (ls : List RawLine) (s : PySpeech.PyState)
    (n : Nat) :
    ((PySpeech.onStdout s ls).2.filter (fun o => o.1 == n)).length ≤ 1 := by
  induction ls generalizing s with
  | nil => simp [PySpeech.onStdout]
  | cons l rest ih =>
    rw [pyOnStdout_cons, List.filter_append, List.length_append]
    rcases pyOnStdoutLine_cases s l with ⟨ho, hp⟩ | ⟨k, oc, ho, hk, hp⟩
    · rw [ho]
      simpa using ih (PySpeech.onStdoutLine (s, []) l).1
    · rw [ho]
      by_cases hkn : (k == n) = true
      · have hkeq : k = n := by simpa using hkn
        subst hkeq
        have habs : (PySpeech.onStdoutLine (s, []) l).1.pending.all
            (fun p => !(p.1 == k)) = true := by
          rw [hp]
          rw [List.all_eq_true]
          intro p hpmem
          have := List.of_mem_filter hpmem
          simpa using this
        have hrest := (pyOnStdout_absent rest
          (PySpeech.onStdoutLine (s, []) l).1 k habs).1
        have hrest0 : ((PySpeech.onStdout (PySpeech.onStdoutLine (s, []) l).1
            rest).2.filter (fun o => o.1 == k)).length = 0 := by
          rw [List.length_eq_zero, List.filter_eq_nil_iff]
          intro o homem
          rw [List.all_eq_true] at hrest
          have := hrest o homem
          simpa using this
        rw [hrest0]
        simp [hkn]
      · have hkn2 : (k == n) = false := by
          simpa using hkn
        simp only [List.filter_cons, hkn2, Bool.false_eq_true, if_false,
          List.filter_nil, List.length_nil, Nat.zero_add]
        exact ih (PySpeech.onStdoutLine (s, []) l).1

theorem claudeResponseLine_miss (s : ClaudeCode.CState) (v : JsonVal)
    (h : ClaudeCode.respHits s.pending v = false) :
    ClaudeCode.handleResponseLine s v = .error ()
  ∨ ClaudeCode.handleResponseLine s v = .ok (s, none) := by
  unfold ClaudeCode.respHits at h
  unfold ClaudeCode.handleResponseLine
  split
  · exact Or.inl rfl
  · rename_i ridOpt heq
    split
    · exact Or.inr rfl
    · rename_i rid
      rw [heq] at h
      simp only at h
      rw [if_neg (by simp [h])]
      exact Or.inr rfl

theorem claudeResponseLine_ok_none (s s1 : ClaudeCode.CState) (v : JsonVal)
    (h : ClaudeCode.handleResponseLine s v = .ok (s1, none)) :
    s1 = s := by
  unfold ClaudeCode.handleResponseLine at h
  split at h
  · exact absurd h (by simp)
  · split at h
    · simp only [Except.ok.injEq, Prod.mk.injEq] at h
      exact h.1.symm
    · split at h
      · split at h
        · exact absurd h (by simp)
        · split at h
          · exact absurd h (by simp)
          · exact absurd h (by simp)
      · simp only [Except.ok.injEq, Prod.mk.injEq] at h
        exact h.1.symm

theorem cPendingHas_any (pending : List (String × ClaudeCode.CPendingEntry))
    (rid : JsonVal) (h : ClaudeCode.pendingHas pending rid = true) :
    pending.any (fun p => p.1 == ClaudeCode.keyOf rid) = true := by
  cases rid with
  | str k => simpa [ClaudeCode.pendingHas, ClaudeCode.keyOf] using h
  | num m => exact absurd h (by simp [ClaudeCode.pendingHas])
  | boolean b => exact absurd h (by simp [ClaudeCode.pendingHas])
  | null => exact absurd h (by simp [ClaudeCode.pendingHas])
  | obj fs => exact absurd h (by simp [ClaudeCode.pendingHas])
  | arr es => exact absurd h (by simp [ClaudeCode.pendingHas])

theorem claudeResponseLine_hit (s : ClaudeCode.CState) (v : JsonVal)
    (s1 : ClaudeCode.CState) (k : String) (oc : ClaudeCode.COutcome)
    (h : ClaudeCode.handleResponseLine s v = .ok (s1, some (k, oc))) :
    s1.pending = s.pending.filter (fun p => !(p.1 == k))
  ∧ s.pending.any (fun p => p.1 == k) = true := by
  unfold ClaudeCode.handleResponseLine at h
  split at h
  · exact absurd h (by simp)
  · split at h
    · exact absurd h (by simp)
    · rename_i rid heq2
      split at h
      · rename_i hguard
        have hhas : ClaudeCode.pendingHas s.pending rid = true := by
          simp only [Bool.and_eq_true] at hguard
          exact hguard.2
        have hany := cPendingHas_any s.pending rid hhas
        split at h
        · exact absurd h (by simp)
        · split at h
          · simp only [Except.ok.injEq, Prod.mk.injEq, Option.some.injEq] at h
            obtain ⟨hs1, hk, _⟩ := h
            subst hk
            exact ⟨by rw [← hs1], hany⟩
          · simp only [Except.ok.injEq, Prod.mk.injEq, Option.some.injEq] at h
            obtain ⟨hs1, hk, _⟩ := h
            subst hk
            exact ⟨by rw [← hs1], hany⟩
      · exact absurd h (by simp)

theorem cFoldl_acc (b : Bool) (ls : List RawLine) (s : ClaudeCode.CState)
    (outs : List (String × ClaudeCode.COutcome)) :
    ls.foldl (ClaudeCode.onStdoutLine b) (s, outs)
      = ((ls.foldl (ClaudeCode.onStdoutLine b) (s, [])).1,
         outs ++ (ls.foldl (ClaudeCode.onStdoutLine b) (s, [])).2) := by
  induction ls generalizing s outs with
  | nil => simp
  | cons l rest ih =>
    have hline : ClaudeCode.onStdoutLine b (s, outs) l
        = ((ClaudeCode.onStdoutLine b (s, []) l).1,
           outs ++ (ClaudeCode.onStdoutLine b (s, []) l).2) := by
      unfold ClaudeCode.onStdoutLine
      cases l.parsed with
      | none => simp
      | some v =>
        cases hh : ClaudeCode.handleResponseLine s v with
        | error e => cases e; simp [hh]
        | ok pr =>
          obtain ⟨sx, o⟩ := pr
          cases o <;> simp [hh]
    rw [List.foldl_cons, List.foldl_cons, hline]
    rw [ih (ClaudeCode.onStdoutLine b (s, []) l).1
          (outs ++ (ClaudeCode.onStdoutLine b (s, []) l).2),
        ih (ClaudeCode.onStdoutLine b (s, []) l).1
          (ClaudeCode.onStdoutLine b (s, []) l).2]
    simp

theorem cFoldl_cons (b : Bool) (s : ClaudeCode.CState) (l : RawLine)
    (rest : List RawLine) :
    (l :: rest).foldl (ClaudeCode.onStdoutLine b) (s, [])
      = ((rest.foldl (ClaudeCode.onStdoutLine b)
            ((ClaudeCode.onStdoutLine b (s, []) l).1, [])).1,
         (ClaudeCode.onStdoutLine b (s, []) l).2
           ++ (rest.foldl (ClaudeCode.onStdoutLine b)
                ((ClaudeCode.onStdoutLine b (s, []) l).1, [])).2) := by
  rw [List.foldl_cons]
  exact cFoldl_acc b rest (ClaudeCode.onStdoutLine b (s, []) l).1
    (ClaudeCode.onStdoutLine b (s, []) l).2

theorem cOnStdoutLine_cases (b : Bool) (s : ClaudeCode.CState) (l : RawLine) :
    ((ClaudeCode.onStdoutLine b (s, []) l).2 = []
      ∧ (ClaudeCode.onStdoutLine b (s, []) l).1.pending = s.pending)
  ∨ (∃ k oc, (ClaudeCode.onStdoutLine b (s, []) l).2 = [(k, oc)]
      ∧ s.pending.any (fun p => p.1 == k) = true
      ∧ (ClaudeCode.onStdoutLine b (s, []) l).1.pending
          = s.pending.filter (fun p => !(p.1 == k))) := by
  unfold ClaudeCode.onStdoutLine
  cases l.parsed with
  | none =>
    left
    cases b <;> simp
  | some v =>
    cases hh : ClaudeCode.handleResponseLine s v with
    | error e =>
      cases e
      left
      cases b <;> simp [hh]
    | ok pr =>
      obtain ⟨sx, o⟩ := pr
      cases o with
      | none =>
        left
        have hs := claudeResponseLine_ok_none s sx v hh
        subst hs
        simp [hh]
      | some ko =>
        right
        obtain ⟨k, oc⟩ := ko
        have hhit := claudeResponseLine_hit s v sx k oc hh
        refine ⟨k, oc, by simp [hh], hhit.2, ?_⟩
        simp only [hh]
        exact hhit.1

theorem cFoldl_absent (b : Bool) (ls : List RawLine) (s : ClaudeCode.CState)
    (n : String) (h : s.pending.all (fun p => !(p.1 == n)) = true) :
    (ls.foldl (ClaudeCode.onStdoutLine b) (s, [])).2.all
        (fun o => !(o.1 == n)) = true
  ∧ (ls.foldl (ClaudeCode.onStdoutLine b) (s, [])).1.pending.all
        (fun p => !(p.1 == n)) = true := by
  induction ls generalizing s with
  | nil => exact ⟨rfl, h⟩
  | cons l rest ih =>
    rw [cFoldl_cons]
    rcases cOnStdoutLine_cases b s l with ⟨ho, hp⟩ | ⟨k, oc, ho, hk, hp⟩
    · have hnext := ih (ClaudeCode.onStdoutLine b (s, []) l).1
        (by rw [hp]; exact h)
      simp [ho, hnext.1, hnext.2]
    · have hkn : (k == n) = false := by
        rw [List.any_eq_true] at hk
        obtain ⟨p, hpmem, hpk⟩ := hk
        rw [List.all_eq_true] at h
        have hpn := h p hpmem
        have hpk2 : p.1 = k := by simpa using hpk
        have hpn2 : p.1 ≠ n := by simpa using hpn
        have hkne : k ≠ n := hpk2 ▸ hpn2
        simp [hkne]
      have habs : (ClaudeCode.onStdoutLine b (s, []) l).1.pending.all
          (fun p => !(p.1 == n)) = true := by
        rw [hp]
        rw [List.all_eq_true] at h ⊢
        intro p hpmem
        exact h p (List.mem_of_mem_filter hpmem)
      have hnext := ih (ClaudeCode.onStdoutLine b (s, []) l).1 habs
      simp [ho, hnext.1, hnext.2, List.all_append, hkn]

theorem cFoldl_settles_once (b : Bool) (ls : List RawLine)
    (s : ClaudeCode.CState) (n : String) :
    ((ls.foldl (ClaudeCode.onStdoutLine b) (s, [])).2.filter
        (fun o => o.1 == n)).length ≤ 1 := by
  induction ls generalizing s with
  | nil => simp
  | cons l rest ih =>
    rw [cFoldl_cons, List.filter_append, List.length_append]
    rcases cOnStdoutLine_cases b s l with ⟨ho, hp⟩ | ⟨k, oc, ho, hk, hp⟩
    · rw [ho]
      simpa using ih (ClaudeCode.onStdoutLine b (s, []) l).1
    · rw [ho]
      by_cases hkn : (k == n) = true
      · have hkeq : k = n := by simpa using hkn
        subst hkeq
        have habs : (ClaudeCode.onStdoutLine b (s, []) l).1.pending.all
            (fun p => !(p.1 == k)) = true := by
          rw [hp]
          rw [List.all_eq_true]
          intro p hpmem
          have := List.of_mem_filter hpmem
          simpa using this
        have hrest := (cFoldl_absent b rest
          (ClaudeCode.onStdoutLine b (s, []) l).1 k habs).1
        have hrest0 : ((rest.foldl (ClaudeCode.onStdoutLine b)
            ((ClaudeCode.onStdoutLine b (s, []) l).1, [])).2.filter
            (fun o => o.1 == k)).length = 0 := by
          rw [List.length_eq_zero, List.filter_eq_nil_iff]
          intro o homem
          rw [List.all_eq_true] at hrest
          have := hrest o homem
          simpa using this
        rw [hrest0]
        simp [hkn]
      · have hkn2 : (k == n) = false := by simpa using hkn
        simp only [List.filter_cons, hkn2, Bool.false_eq_true, if_false,
          List.filter_nil, List.length_nil, Nat.zero_add]
        exact ih (ClaudeCode.onStdoutLine b (s, []) l).1

theorem cOnStdout_settles_once (c : ClaudeCode.CChunk)
    (s : ClaudeCode.CState) (n : String) :
    ((ClaudeCode.onStdout s c).2.filter (fun o => o.1 == n)).length ≤ 1 := by
  cases c with
  | marked id payload =>
    by_cases hany : (s.pending.any fun p => p.1 == id) = true
    · by_cases hin : (id == n) = true <;>
        simp [ClaudeCode.onStdout, hany, hin]
    · simp [ClaudeCode.onStdout, hany]
  | plain ls b => exact cFoldl_settles_once b ls s n

/-- C3 counterexample: when the timeout fires for an in-flight *recognition*
request, the python service deletes the entry but then *resolves* the call
with `{transcript: '', confidence: 0, error: 'Recognition timeout'}` instead
of rejecting it — refuting the claim that every timed-out call rejects with
a request-timeout error. -/
theorem recognize_timeout_resolves_not_rejects :
    PySpeech.isRecognize Ex.recognizeReq = true
  ∧ PySpeech.timeoutFire Ex.pyLive 1 Ex.recognizeReq
      = ({ Ex.pyLive with pending := [] },
         .resolved [("transcript", .str ""), ("confidence", .num 0),
                    ("error", .str "Recognition timeout")])
  ∧ PySpeech.PyOutcome.isRejected
      (.resolved [("transcript", .str ""), ("confidence", .num 0),
                  ("error", .str "Recognition timeout")]) = false :=
  ⟨rfl, rfl, rfl⟩

/-- C3 (amended): a fired timeout removes the pending entry in both
services; the claude service rejects with `'Request timeout'` (and is a
no-op when the entry is already gone), while the python service rejects
with `'Request timeout'` only for non-`recognize` requests and resolves
`recognize` requests with a recognition-timeout result.  Any response whose
`requestId` has no pending entry changes no pending entry and settles
nothing — parse and property-access exceptions are caught and logged inside
the routers — and over any stdout chunk each router settles each id at most
once (a removed id can never be settled again). -/
theorem timeout_and_unknown_response_behavior
    (s : PySpeech.PyState) (id1 : Nat) (req1 : List (String × JsonVal))
    (hnr : PySpeech.isRecognize req1 = false)
    (id2 : Nat) (req2 : List (String × JsonVal))
    (hr : PySpeech.isRecognize req2 = true)
    (l : RawLine) (hl : PySpeech.lineHits s.pending l = false)
    (ls : List RawLine) (n : Nat)
    (sc : ClaudeCode.CState) (cid1 cid2 : String)
    (hc1 : sc.pending.any (fun p => p.1 == cid1) = true)
    (hc2 : sc.pending.any (fun p => p.1 == cid2) = false)
    (payload : String) (vc : JsonVal)
    (hvc : ClaudeCode.respHits sc.pending vc = false)
    (chunk : ClaudeCode.CChunk) (cn : String) :
    PySpeech.timeoutFire s id1 req1
      = ({ s with pending := s.pending.filter (fun p => !(p.1 == id1)) },
         .rejected "Request timeout")
  ∧ PySpeech.timeoutFire s id2 req2
      = ({ s with pending := s.pending.filter (fun p => !(p.1 == id2)) },
         .resolved [("transcript", .str ""), ("confidence", .num 0),
                    ("error", .str "Recognition timeout")])
  ∧ (PySpeech.onStdout s [l]).1.pending = s.pending
  ∧ (PySpeech.onStdout s [l]).2 = []
  ∧ ((PySpeech.onStdout s ls).2.filter (fun o => o.1 == n)).length ≤ 1
  ∧ ClaudeCode.timeoutFire sc cid1
      = ({ sc with pending := sc.pending.filter (fun p => !(p.1 == cid1)) },
         some (cid1, .rejected "Request timeout"))
  ∧ ClaudeCode.timeoutFire sc cid2 = (sc, none)
  ∧ ClaudeCode.onStdout sc (.marked cid2 payload) = (sc, [])
  ∧ ((ClaudeCode.onStdout sc chunk).2.filter (fun o => o.1 == cn)).length ≤ 1
  ∧ (ClaudeCode.handleResponseLine sc vc = .error ()
      ∨ ClaudeCode.handleResponseLine sc vc = .ok (sc, none)) := by
  have hline : (PySpeech.onStdoutLine (s, []) l).1.pending = s.pending
      ∧ (PySpeech.onStdoutLine (s, []) l).2 = [] := by
    unfold PySpeech.onStdoutLine
    cases hp : l.parsed with
    | none => simp
    | some v =>
      have hmiss : PySpeech.respHits s.pending v = false := by
        unfold PySpeech.lineHits at hl
        rw [hp] at hl
        simpa using hl
      rcases handlePythonResponse_miss s v hmiss with hm | hm <;> simp [hm]
  have honce : PySpeech.onStdout s [l]
      = ((PySpeech.onStdoutLine (s, []) l).1,
         (PySpeech.onStdoutLine (s, []) l).2) := by
    rw [pyOnStdout_cons s l []]
    simp [PySpeech.onStdout]
  refine ⟨?_, ?_, by rw [honce]; exact hline.1, by rw [honce]; exact hline.2,
    pyOnStdout_settles_once ls s n, ?_, ?_, ?_,
    cOnStdout_settles_once chunk sc cn,
    claudeResponseLine_miss sc vc hvc⟩
  · simp [PySpeech.timeoutFire, hnr]
  · simp [PySpeech.timeoutFire, hr]
  · simp [ClaudeCode.timeoutFire, hc1]
  · simp [ClaudeCode.timeoutFire, hc2]
  · simp [ClaudeCode.onStdout, hc2]

theorem timeout_and_unknown_response_behavior_witness :
    PySpeech.isRecognize Ex.synthesizeReq = false
  ∧ PySpeech.isRecognize Ex.recognizeReq = true
  ∧ PySpeech.lineHits Ex.pyLive.pending
      ⟨"\x7b\x22requestId\x22: 99\x7d", some (.obj [("requestId", .num 99)])⟩ = false
  ∧ Ex.cLive.pending.any (fun p => p.1 == "1") = true
  ∧ Ex.cLive.pending.any (fun p => p.1 == "7") = false
  ∧ ClaudeCode.respHits Ex.cLive.pending (.obj [("requestId", .str "7")]) = false
  ∧ PySpeech.timeoutFire Ex.pyLive 1 Ex.synthesizeReq
      = ({ Ex.pyLive with
             pending := Ex.pyLive.pending.filter (fun p => !(p.1 == 1)) },
         .rejected "Request timeout")
  ∧ (PySpeech.onStdout Ex.pyLive
      [⟨"\x7b\x22requestId\x22: 99\x7d", some (.obj [("requestId", .num 99)])⟩]).1.pending
      = Ex.pyLive.pending
  ∧ ClaudeCode.timeoutFire Ex.cLive "7" = (Ex.cLive, none)
  ∧ ClaudeCode.onStdout Ex.cLive (.marked "7" "some text") = (Ex.cLive, []) := by
  have h := timeout_and_unknown_response_behavior Ex.pyLive 1 Ex.synthesizeReq
    rfl 1 Ex.recognizeReq rfl
    ⟨"\x7b\x22requestId\x22: 99\x7d", some (.obj [("requestId", .num 99)])⟩ rfl
    [] 1 Ex.cLive "1" "7" rfl rfl "some text"
    (.obj [("requestId", .str "7")]) rfl (.marked "1" "partial answer") "1"
  exact ⟨rfl, rfl, rfl, rfl, rfl, rfl, h.1, h.2.2.1, h.2.2.2.2.2.2.1,
    h.2.2.2.2.2.2.2.1⟩
